import Mathlib

/-!
Shallow embedding of the cyphr repository: the wire-value model
(`neo4rs::BoltType` as consumed by `cyphr-core`), the error taxonomy
(`cyphr-core/src/error.rs`), the conversion engine
(`cyphr-core/src/value.rs`), the record/property accessors
(`record.rs`, `props.rs`), and the code emitted by the derive macros
(`cyphr-macros/src/from_cyphr.rs`, `node.rs`, `relation.rs`,
`to_cyphr_params.rs`), together with theorems settling the spec claims.

Machine integers are modelled as `Int` with explicit wrapping where the
Rust source performs an `as` cast.  The payloads of `Float` values are
carried opaquely as their 64-bit patterns (an `Int`); the repository
never computes with them, it only copies them or hands them to a
primitive cast, which is taken as a parameter.  Backend reinterpretation
steps (`try_into`/`into` from `neo4rs` bolt temporal types into `chrono`
types) live outside this repository and are taken as function
parameters of the corresponding conversions.
-/

namespace Cyphr

/-- Opaque carrier for a Rust `f64` payload (its 64-bit pattern). -/
def F64 : Type := Int

/-- Opaque carrier for a Rust `f32` payload (its 32-bit pattern). -/
def F32 : Type := Int

instance : DecidableEq F64 := inferInstanceAs (DecidableEq Int)

instance : DecidableEq F32 := inferInstanceAs (DecidableEq Int)

/-- Payload of `neo4rs::BoltType::Point2D`. -/
structure BoltPoint2D where
  sr_id : Int
  x : F64
  y : F64

/-- Payload of `neo4rs::BoltType::Point3D`. -/
structure BoltPoint3D where
  sr_id : Int
  x : F64
  y : F64
  z : F64

/-- Payload of `neo4rs::BoltType::Duration`. -/
structure BoltDuration where
  months : Int
  days : Int
  seconds : Int
  nanoseconds : Int

/-- Payload of `neo4rs::BoltType::Date`. -/
structure BoltDate where
  days : Int

/-- Payload of `neo4rs::BoltType::Time`. -/
structure BoltTime where
  nanoseconds : Int
  tz_offset_seconds : Int

/-- Payload of `neo4rs::BoltType::LocalTime`. -/
structure BoltLocalTime where
  nanoseconds : Int

/-- Payload of `neo4rs::BoltType::LocalDateTime`. -/
structure BoltLocalDateTime where
  seconds : Int
  nanoseconds : Int

/-- Payload of `neo4rs::BoltType::DateTime`. -/
structure BoltDateTime where
  seconds : Int
  nanoseconds : Int
  tz_offset_seconds : Int

/-- Payload of `neo4rs::BoltType::DateTimeZoneId`. -/
structure BoltDateTimeZoneId where
  seconds : Int
  nanoseconds : Int
  tz_id : String

mutual

/-- The closed tagged union of wire values (`neo4rs::BoltType`), exactly
the 21 variants matched by `cyphr-core`. -/
inductive BoltType : Type where
  | Null : BoltType
  | Boolean : Bool → BoltType
  | Integer : Int → BoltType
  | Float : F64 → BoltType
  | String : String → BoltType
  | Bytes : List Nat → BoltType
  | List : List BoltType → BoltType
  | Map : List (Prod String BoltType) → BoltType
  | Node : BoltNode → BoltType
  | Relation : BoltRelation → BoltType
  | UnboundedRelation : BoltUnboundedRelation → BoltType
  | Path : BoltPath → BoltType
  | Point2D : BoltPoint2D → BoltType
  | Point3D : BoltPoint3D → BoltType
  | Duration : BoltDuration → BoltType
  | Date : BoltDate → BoltType
  | Time : BoltTime → BoltType
  | LocalTime : BoltLocalTime → BoltType
  | LocalDateTime : BoltLocalDateTime → BoltType
  | DateTime : BoltDateTime → BoltType
  | DateTimeZoneId : BoltDateTimeZoneId → BoltType

/-- A graph node (`neo4rs::BoltNode`): identity, labels, property bag. -/
inductive BoltNode : Type where
  | mk (id : Int) (labels : List String)
      (properties : List (Prod String BoltType)) : BoltNode

/-- A graph relationship (`neo4rs::BoltRelation`). -/
inductive BoltRelation : Type where
  | mk (id : Int) (start_node_id : Int) (end_node_id : Int)
      (typ : String) (properties : List (Prod String BoltType)) : BoltRelation

/-- An unbounded relationship (`neo4rs::BoltUnboundedRelation`). -/
inductive BoltUnboundedRelation : Type where
  | mk (id : Int) (typ : String)
      (properties : List (Prod String BoltType)) : BoltUnboundedRelation

/-- A path (`neo4rs::BoltPath`): three raw bolt lists. -/
inductive BoltPath : Type where
  | mk (nodes : List BoltType) (rels : List BoltType)
      (indices : List BoltType) : BoltPath

end

/-- The error taxonomy of `cyphr-core/src/error.rs` (`CyphrError`).
The `Neo4j` variant carries the rendered driver error as a string. -/
inductive CyphrError : Type where
  | Mapping : String → CyphrError
  | MissingProperty : String → String → CyphrError
  | MissingField : String → String → CyphrError
  | TypeMismatch : String → String → String → CyphrError
  | Context : String → CyphrError → CyphrError
  | Neo4j : String → CyphrError
deriving DecidableEq

/-- Display rendering of an error, following the thiserror format
attributes on each variant of `CyphrError`. -/
def CyphrError.render : CyphrError → String
  | .Mapping m => "mapping error: " ++ m
  | .MissingProperty property label =>
      "missing property \x27" ++ property ++ "\x27 on " ++ label
  | .MissingField field struct_name =>
      "missing field \x27" ++ field ++ "\x27 on " ++ struct_name
  | .TypeMismatch expected got context =>
      "type mismatch: expected " ++ expected ++ ", got " ++ got ++ " (" ++ context ++ ")"
  | .Context context source => context ++ ": " ++ source.render
  | .Neo4j m => "neo4j error: " ++ m

/-- Constructor helper `CyphrError::type_mismatch`. -/
def CyphrError.type_mismatch (expected got context : String) : CyphrError :=
  CyphrError.TypeMismatch expected got context

/-- Constructor helper `CyphrError::missing_property`. -/
def CyphrError.missing_property (property label : String) : CyphrError :=
  CyphrError.MissingProperty property label

/-- Constructor helper `CyphrError::missing_field`. -/
def CyphrError.missing_field (field struct_name : String) : CyphrError :=
  CyphrError.MissingField field struct_name

/-- Method `CyphrError::with_context`: wraps this error in a `Context`
variant owning the prior error. -/
def CyphrError.with_context (e : CyphrError) (ctx : String) : CyphrError :=
  CyphrError.Context ctx e

/-- Function `type_name` of `cyphr-core/src/value.rs`: the fixed
human-readable tag of the active variant. -/
def type_name : BoltType → String
  | .Null => "Null"
  | .Boolean _ => "Boolean"
  | .Integer _ => "Integer"
  | .Float _ => "Float"
  | .String _ => "String"
  | .Bytes _ => "Bytes"
  | .List _ => "List"
  | .Map _ => "Map"
  | .Node _ => "Node"
  | .Relation _ => "Relationship"
  | .UnboundedRelation _ => "UnboundedRelationship"
  | .Path _ => "Path"
  | .Point2D _ => "Point2D"
  | .Point3D _ => "Point3D"
  | .Duration _ => "Duration"
  | .Date _ => "Date"
  | .Time _ => "Time"
  | .LocalTime _ => "LocalTime"
  | .LocalDateTime _ => "LocalDateTime"
  | .DateTime _ => "DateTime"
  | .DateTimeZoneId _ => "DateTimeZoneId"

/-! Conversion engine: the `FromCyphrValue` impls of
`cyphr-core/src/value.rs`.  Generic impls (over an element type `T`
with its own `FromCyphrValue` impl) take the element conversion as a
function parameter, exactly as the Rust code is generic over
`T::from_value`. -/

/-- Semantics of the Rust cast `n as uN` from an `i64`: keep the low
`w` bits, read them as unsigned. -/
def wrapUnsigned (w : Nat) (n : Int) : Int := n % ((2 : Int) ^ w)

/-- Semantics of the Rust cast `n as iN` from an `i64`: keep the low
`w` bits, read them as two-complement signed. -/
def wrapSigned (w : Nat) (n : Int) : Int :=
  let m := n % ((2 : Int) ^ w)
  if m < (2 : Int) ^ (w - 1) then m else m - (2 : Int) ^ w

/-- Numeric impl generated by `impl_from_val_num!(i64, Integer)`;
the cast `v.value as i64` is the identity on an `i64`. -/
def fromValue_i64 : BoltType → Except CyphrError Int
  | .Integer v => .ok v
  | other => .error (CyphrError.type_mismatch "Integer" (type_name other) "i64")

/-- Numeric impl generated by `impl_from_val_num!(i32, Integer)`. -/
def fromValue_i32 : BoltType → Except CyphrError Int
  | .Integer v => .ok (wrapSigned 32 v)
  | other => .error (CyphrError.type_mismatch "Integer" (type_name other) "i32")

/-- Numeric impl generated by `impl_from_val_num!(u64, Integer)`. -/
def fromValue_u64 : BoltType → Except CyphrError Int
  | .Integer v => .ok (wrapUnsigned 64 v)
  | other => .error (CyphrError.type_mismatch "Integer" (type_name other) "u64")

/-- Numeric impl generated by `impl_from_val_num!(u32, Integer)`. -/
def fromValue_u32 : BoltType → Except CyphrError Int
  | .Integer v => .ok (wrapUnsigned 32 v)
  | other => .error (CyphrError.type_mismatch "Integer" (type_name other) "u32")

/-- Numeric impl generated by `impl_from_val_num!(i16, Integer)`. -/
def fromValue_i16 : BoltType → Except CyphrError Int
  | .Integer v => .ok (wrapSigned 16 v)
  | other => .error (CyphrError.type_mismatch "Integer" (type_name other) "i16")

/-- Numeric impl generated by `impl_from_val_num!(u16, Integer)`. -/
def fromValue_u16 : BoltType → Except CyphrError Int
  | .Integer v => .ok (wrapUnsigned 16 v)
  | other => .error (CyphrError.type_mismatch "Integer" (type_name other) "u16")

/-- Numeric impl generated by `impl_from_val_num!(i8, Integer)`. -/
def fromValue_i8 : BoltType → Except CyphrError Int
  | .Integer v => .ok (wrapSigned 8 v)
  | other => .error (CyphrError.type_mismatch "Integer" (type_name other) "i8")

/-- Numeric impl generated by `impl_from_val_num!(u8, Integer)`. -/
def fromValue_u8 : BoltType → Except CyphrError Int
  | .Integer v => .ok (wrapUnsigned 8 v)
  | other => .error (CyphrError.type_mismatch "Integer" (type_name other) "u8")

/-- Numeric impl generated by `impl_from_val_num!(f64, Float)`;
the cast `v.value as f64` is the identity on an `f64`. -/
def fromValue_f64 : BoltType → Except CyphrError F64
  | .Float v => .ok v
  | other => .error (CyphrError.type_mismatch "Float" (type_name other) "f64")

/-- Numeric impl generated by `impl_from_val_num!(f32, Float)`; the
primitive cast `v.value as f32` is outside this repository and is
taken as the parameter `f64_as_f32`. -/
def fromValue_f32 (f64_as_f32 : F64 → F32) : BoltType → Except CyphrError F32
  | .Float v => .ok (f64_as_f32 v)
  | other => .error (CyphrError.type_mismatch "Float" (type_name other) "f32")

/-- Impl `FromCyphrValue for String`. -/
def fromValue_String : BoltType → Except CyphrError String
  | .String s => .ok s
  | other => .error (CyphrError.type_mismatch "String" (type_name other) "String")

/-- Impl `FromCyphrValue for bool`. -/
def fromValue_bool : BoltType → Except CyphrError Bool
  | .Boolean b => .ok b
  | other => .error (CyphrError.type_mismatch "Boolean" (type_name other) "bool")

/-- Semantics of `collect::<Result<Vec<_>, _>>()` over a mapped
iterator: elements in order, first error aborts. -/
def collectResults (f : α → Except CyphrError β) : List α → Except CyphrError (List β)
  | [] => .ok []
  | x :: xs =>
    match f x with
    | .error e => .error e
    | .ok y =>
      match collectResults f xs with
      | .error e => .error e
      | .ok ys => .ok (y :: ys)

/-- Impl `FromCyphrValue for Vec<T>`; `fT` is `T::from_value`. -/
def fromValue_Vec (fT : BoltType → Except CyphrError α) :
    BoltType → Except CyphrError (List α)
  | .List xs => collectResults fT xs
  | other => .error (CyphrError.type_mismatch "List" (type_name other) "Vec<T>")

/-- Impl `FromCyphrValue for Option<T>`; `fT` is `T::from_value`. -/
def fromValue_Option (fT : BoltType → Except CyphrError α) :
    BoltType → Except CyphrError (Option α)
  | .Null => .ok none
  | other =>
    match fT other with
    | .error e => .error e
    | .ok t => .ok (some t)

/-- The `NodeWrapper` newtype of `cyphr-core/src/traits.rs`. -/
structure NodeWrapper (α : Type) where
  val : α

/-- The `RelationWrapper` newtype of `cyphr-core/src/traits.rs`. -/
structure RelationWrapper (α : Type) where
  val : α

/-- Impl `FromCyphrValue for NodeWrapper<T>` with `T : CyphrNode`;
`LABEL` is the associated constant and `from_node` the associated
reconstruction of `T`. -/
def fromValue_NodeWrapper (LABEL : String)
    (from_node : BoltNode → Except CyphrError α) :
    BoltType → Except CyphrError (NodeWrapper α)
  | .Node n =>
    match from_node n with
    | .error e => .error e
    | .ok t => .ok (NodeWrapper.mk t)
  | other => .error (CyphrError.type_mismatch "Node" (type_name other) LABEL)

/-- Impl `FromCyphrValue for RelationWrapper<T>` with `T : CyphrRelation`. -/
def fromValue_RelationWrapper (TYPE : String)
    (from_rel : BoltRelation → Except CyphrError α) :
    BoltType → Except CyphrError (RelationWrapper α)
  | .Relation r =>
    match from_rel r with
    | .error e => .error e
    | .ok t => .ok (RelationWrapper.mk t)
  | other => .error (CyphrError.type_mismatch "Relationship" (type_name other) TYPE)

/-! Tuple impls.  The Rust code removes elements with
`xs.value.pop().unwrap()` under an exact-length match guard; `pop` is
modelled by `vecPop` returning `none` on an empty vector, and `unwrap`
by the surrounding `Option`: a `none` overall result models a panic. -/

/-- Semantics of `Vec::pop`: remove and return the last element. -/
def vecPop : List α → Option (List α × α)
  | [] => none
  | x :: xs =>
    match vecPop xs with
    | none => some ([], x)
    | some (ys, last) => some (x :: ys, last)

/-- Impl `FromCyphrValue for (A, B)`; the outer `Option` is `none`
exactly when a modelled `unwrap` would panic. -/
def fromValue_Pair (fA : BoltType → Except CyphrError α)
    (fB : BoltType → Except CyphrError β) :
    BoltType → Option (Except CyphrError (α × β))
  | .List xs =>
    if xs.length = 2 then
      match vecPop xs with
      | none => none
      | some (xs1, b) =>
        match vecPop xs1 with
        | none => none
        | some (_, a) =>
          some (match fA a with
            | .error e => .error e
            | .ok va =>
              match fB b with
              | .error e => .error e
              | .ok vb => .ok (va, vb))
    else
      some (.error (CyphrError.type_mismatch "List[2]"
        (type_name (.List xs)) "tuple(A, B)"))
  | other =>
    some (.error (CyphrError.type_mismatch "List[2]" (type_name other) "tuple(A, B)"))

/-- Impl `FromCyphrValue for (A, B, C)`; panic modelling as in
`fromValue_Pair`. -/
def fromValue_Triple (fA : BoltType → Except CyphrError α)
    (fB : BoltType → Except CyphrError β)
    (fC : BoltType → Except CyphrError γ) :
    BoltType → Option (Except CyphrError (α × β × γ))
  | .List xs =>
    if xs.length = 3 then
      match vecPop xs with
      | none => none
      | some (xs1, c) =>
        match vecPop xs1 with
        | none => none
        | some (xs2, b) =>
          match vecPop xs2 with
          | none => none
          | some (_, a) =>
            some (match fA a with
              | .error e => .error e
              | .ok va =>
                match fB b with
                | .error e => .error e
                | .ok vb =>
                  match fC c with
                  | .error e => .error e
                  | .ok vc => .ok (va, vb, vc))
    else
      some (.error (CyphrError.type_mismatch "List[3]"
        (type_name (.List xs)) "tuple(A, B, C)"))
  | other =>
    some (.error (CyphrError.type_mismatch "List[3]" (type_name other) "tuple(A, B, C)"))

/-! Temporal impls.  The reinterpretation steps from bolt temporal
payloads into `chrono` host types (`try_into` and `into` conversions
supplied by `neo4rs`) are external to this repository; fallible ones
are parameters returning `Except String`, infallible ones plain
functions.  The host target type is abstracted as a type variable. -/

/-- Impl `FromCyphrValue for chrono::NaiveDate`. -/
def fromValue_NaiveDate (tryIntoDate : BoltDate → Except String δ) :
    BoltType → Except CyphrError δ
  | .Date d =>
    match tryIntoDate d with
    | .error e => .error (CyphrError.Mapping ("BoltDate -> NaiveDate: " ++ e))
    | .ok date => .ok date
  | other => .error (CyphrError.type_mismatch "Date" (type_name other) "NaiveDate")

/-- Impl `FromCyphrValue for chrono::NaiveTime` (infallible `into`). -/
def fromValue_NaiveTime (intoTime : BoltLocalTime → δ) :
    BoltType → Except CyphrError δ
  | .LocalTime t => .ok (intoTime t)
  | other => .error (CyphrError.type_mismatch "LocalTime" (type_name other) "NaiveTime")

/-- Impl `FromCyphrValue for (chrono::NaiveTime, chrono::FixedOffset)`
(infallible `into`). -/
def fromValue_TimePair (intoPair : BoltTime → δ) :
    BoltType → Except CyphrError δ
  | .Time t => .ok (intoPair t)
  | other =>
    .error (CyphrError.type_mismatch "Time" (type_name other) "(NaiveTime, FixedOffset)")

/-- Impl `FromCyphrValue for chrono::NaiveDateTime`. -/
def fromValue_NaiveDateTime (tryIntoNdt : BoltLocalDateTime → Except String δ) :
    BoltType → Except CyphrError δ
  | .LocalDateTime dt =>
    match tryIntoNdt dt with
    | .error e =>
      .error (CyphrError.Mapping ("BoltLocalDateTime -> NaiveDateTime: " ++ e))
    | .ok ndt => .ok ndt
  | other =>
    .error (CyphrError.type_mismatch "LocalDateTime" (type_name other) "NaiveDateTime")

/-- Impl `FromCyphrValue for chrono::DateTime<chrono::FixedOffset>`:
accepts both the `DateTime` and the `DateTimeZoneId` bolt variants. -/
def fromValue_DateTimeFixedOffset
    (tryIntoDt : BoltDateTime → Except String δ)
    (tryIntoZoned : BoltDateTimeZoneId → Except String δ) :
    BoltType → Except CyphrError δ
  | .DateTime dt =>
    match tryIntoDt dt with
    | .error e =>
      .error (CyphrError.Mapping ("BoltDateTime -> DateTime<FixedOffset>: " ++ e))
    | .ok cdt => .ok cdt
  | .DateTimeZoneId dt =>
    match tryIntoZoned dt with
    | .error e =>
      .error (CyphrError.Mapping ("BoltDateTimeZoneId -> DateTime<FixedOffset>: " ++ e))
    | .ok cdt => .ok cdt
  | other =>
    .error (CyphrError.type_mismatch "DateTime" (type_name other) "DateTime<FixedOffset>")

/-- Impl `FromCyphrValue for std::time::Duration` (infallible `into`). -/
def fromValue_StdDuration (intoDuration : BoltDuration → δ) :
    BoltType → Except CyphrError δ
  | .Duration d => .ok (intoDuration d)
  | other =>
    .error (CyphrError.type_mismatch "Duration" (type_name other) "std::time::Duration")

/-- The `Point2D` host type of `cyphr-core/src/value.rs`. -/
structure Point2D where
  sr_id : Int
  x : F64
  y : F64
deriving DecidableEq

/-- The `Point3D` host type of `cyphr-core/src/value.rs`. -/
structure Point3D where
  sr_id : Int
  x : F64
  y : F64
  z : F64
deriving DecidableEq

/-- Impl `FromCyphrValue for Point2D`: field-for-field copy. -/
def fromValue_Point2D : BoltType → Except CyphrError Point2D
  | .Point2D p => .ok (Point2D.mk p.sr_id p.x p.y)
  | other => .error (CyphrError.type_mismatch "Point2D" (type_name other) "Point2D")

/-- Impl `FromCyphrValue for Point3D`: field-for-field copy. -/
def fromValue_Point3D : BoltType → Except CyphrError Point3D
  | .Point3D p => .ok (Point3D.mk p.sr_id p.x p.y p.z)
  | other => .error (CyphrError.type_mismatch "Point3D" (type_name other) "Point3D")

/-- The `CyphrBytes` newtype wrapper. -/
structure CyphrBytes where
  val : List Nat
deriving DecidableEq

/-- Impl `FromCyphrValue for CyphrBytes`. -/
def fromValue_CyphrBytes : BoltType → Except CyphrError CyphrBytes
  | .Bytes b => .ok (CyphrBytes.mk b)
  | other => .error (CyphrError.type_mismatch "Bytes" (type_name other) "CyphrBytes")

/-- Semantics of `HashMap::insert`: replace the binding of an existing
key, otherwise append a new binding. -/
def mapInsert (k : String) (v : α) : List (String × α) → List (String × α)
  | [] => [(k, v)]
  | (k2, v2) :: rest =>
    if k2 = k then (k, v) :: rest else (k2, v2) :: mapInsert k v rest

/-- Lookup in the association-list model of a `HashMap`. -/
def mapLookup (k : String) : List (String × α) → Option α
  | [] => none
  | (k2, v2) :: rest => if k2 = k then some v2 else mapLookup k rest

/-- Impl `FromCyphrValue for HashMap<String, V>`: iterate the bolt map
entries in order, converting each value; the first failing entry
aborts. -/
def fromValue_HashMap (fV : BoltType → Except CyphrError α) :
    BoltType → Except CyphrError (List (String × α))
  | .Map m =>
    let rec go : List (Prod String BoltType) → List (String × α) →
        Except CyphrError (List (String × α))
      | [], out => .ok out
      | (k, v) :: rest, out =>
        match fV v with
        | .error e => .error e
        | .ok w => go rest (mapInsert k w out)
    go m []
  | other =>
    .error (CyphrError.type_mismatch "Map" (type_name other) "HashMap<String, V>")

/-! Path reconstruction.  The accessors `BoltPath::nodes`,
`BoltPath::rels` and `BoltPath::indices` belong to `neo4rs`: each
walks the corresponding raw bolt list and extracts the entries of the
expected variant. -/

/-- Accessor `BoltPath::nodes`: the `Node` entries of the raw list. -/
def pathNodes : BoltPath → List BoltNode
  | .mk nodes _ _ =>
    nodes.filterMap fun v =>
      match v with
      | .Node n => some n
      | _ => none

/-- Accessor `BoltPath::rels`: the `UnboundedRelation` entries. -/
def pathRels : BoltPath → List BoltUnboundedRelation
  | .mk _ rels _ =>
    rels.filterMap fun v =>
      match v with
      | .UnboundedRelation r => some r
      | _ => none

/-- Accessor `BoltPath::indices` composed with the `.value` projection
done in `value.rs`: the integer values of the `Integer` entries. -/
def pathIndices : BoltPath → List Int
  | .mk _ _ indices =>
    indices.filterMap fun v =>
      match v with
      | .Integer i => some i
      | _ => none

/-- The `CyphrPath<N>` host type: decoded nodes, raw unbounded
relationships, raw indices. -/
structure CyphrPath (α : Type) where
  nodes : List α
  rels : List BoltUnboundedRelation
  indices : List Int

/-- Impl `FromCyphrValue for CyphrPath<N>`; `from_node` is
`N::from_node`.  Nodes are decoded in order by a loop propagating the
first failure; relationships and indices are passed through. -/
def fromValue_CyphrPath (from_node : BoltNode → Except CyphrError α) :
    BoltType → Except CyphrError (CyphrPath α)
  | .Path p =>
    match collectResults from_node (pathNodes p) with
    | .error e => .error e
    | .ok nodes => .ok (CyphrPath.mk nodes (pathRels p) (pathIndices p))
  | other => .error (CyphrError.type_mismatch "Path" (type_name other) "CyphrPath")

/-! Record and property accessors (`record.rs`, `props.rs`).  A
`neo4rs::Row` behaves as a name-keyed association of wire values; it
is modelled as an association list with lookup of the first match. -/

/-- A result record (`neo4rs::Row`). -/
def Row : Type := List (String × BoltType)

/-- Function `get_value` of `record.rs`: lookup by column name. -/
def get_value (record : Row) (key : String) : Option BoltType :=
  mapLookup key record

/-- Function `has_key` of `record.rs`. -/
def has_key (record : Row) (key : String) : Bool :=
  (get_value record key).isSome

/-- Function `node_prop` of `props.rs`: property lookup on a node. -/
def node_prop : BoltNode → String → Option BoltType
  | .mk _ _ properties, key => mapLookup key properties

/-- Function `rel_prop` of `props.rs`: property lookup on a
relationship. -/
def rel_prop : BoltRelation → String → Option BoltType
  | .mk _ _ _ _ properties, key => mapLookup key properties

/-! Schema mapping compiler.  The derive macros run at build time over
a field schema and emit straight-line per-field extraction code; the
emitted code is modelled here as an interpreter over the schema.  The
decoded struct is modelled homogeneously as the list of decoded field
values, in field order; each field carries its own conversion function
(its target type T with its `from_value`). -/

/-- A field of a compile-time schema: the field ident and the optional
explicit key override declared with the `prop` attribute. -/
structure SchemaField where
  name : String
  prop_override : Option String
deriving DecidableEq

/-- Lookup key used by the `FromCyphr` derive for a field
(`from_cyphr.rs`, `key = ident.to_string()`): always the field ident,
no attribute is consulted. -/
def fromCyphrKey (f : SchemaField) : String := f.name

/-- Lookup key used by the `CyphrNode` derive for a field (`node.rs`,
`prop_key` resolution): the `prop` override when declared, else the
field ident. -/
def nodeKey (f : SchemaField) : String := f.prop_override.getD f.name

/-- Lookup key used by the `CyphrRelation` derive for a field
(`relation.rs`, `prop_key` resolution). -/
def relationKey (f : SchemaField) : String := f.prop_override.getD f.name

/-- Extraction strategy chosen by the `FromCyphr` derive for a field:
flatten, optional (the field type is syntactically `Option<..>`), or
required. -/
inductive FieldKind (α : Type) where
  | flatten (sub : Row → Except CyphrError α)
  | optionField (fOpt : BoltType → Except CyphrError α) (noneValue : α)
  | required (fT : BoltType → Except CyphrError α)

/-- A field as seen by the `FromCyphr` derive: its ident (also its
lookup key) and its strategy. -/
structure FieldSpec (α : Type) where
  name : String
  kind : FieldKind α

/-- The field initializer expression emitted by the `FromCyphr` derive
(`from_cyphr.rs`): for an optional field a missing key yields the
`None` value and a present key runs the full `Option<T>::from_value`
with context wrapping; for a required field a missing key fails with
`missing_field` and a present key runs `T::from_value` with context
wrapping. -/
def fieldInit (struct_name : String) (record : Row) (f : FieldSpec α) :
    Except CyphrError α :=
  match f.kind with
  | .flatten sub => sub record
  | .optionField fOpt noneValue =>
    match get_value record f.name with
    | none => .ok noneValue
    | some v =>
      match fOpt v with
      | .error e => .error (e.with_context (struct_name ++ "::" ++ f.name))
      | .ok x => .ok x
  | .required fT =>
    match get_value record f.name with
    | none => .error (CyphrError.missing_field f.name struct_name)
    | some v =>
      match fT v with
      | .error e => .error (e.with_context (struct_name ++ "::" ++ f.name))
      | .ok x => .ok x

/-- The `from_record` body emitted by the `FromCyphr` derive: all field
initializers run in order inside a struct literal, each followed by
the try operator, so the first failing field aborts the whole
projection. -/
def from_record (struct_name : String) (fields : List (FieldSpec α))
    (record : Row) : Except CyphrError (List α) :=
  collectResults (fieldInit struct_name record) fields

/-- A field as seen by the `CyphrNode` and `CyphrRelation` derives:
ident, optional `prop` override and the field type conversion. -/
structure EntityFieldSpec (α : Type) where
  name : String
  prop_override : Option String
  fT : BoltType → Except CyphrError α

/-- The field initializer emitted by the `CyphrNode` derive
(`node.rs`): property lookup by the resolved key, `missing_property`
on absence, conversion with context wrapping otherwise. -/
def node_field_init (label : String) (node : BoltNode)
    (f : EntityFieldSpec α) : Except CyphrError α :=
  let prop_key := f.prop_override.getD f.name
  match node_prop node prop_key with
  | none => .error (CyphrError.missing_property prop_key label)
  | some v =>
    match f.fT v with
    | .error e =>
      .error (e.with_context
        (label ++ "::" ++ f.name ++ " (prop \x27" ++ prop_key ++ "\x27)"))
    | .ok x => .ok x

/-- The `from_node` body emitted by the `CyphrNode` derive. -/
def from_node (label : String) (fields : List (EntityFieldSpec α))
    (node : BoltNode) : Except CyphrError (List α) :=
  collectResults (node_field_init label node) fields

/-- The field initializer emitted by the `CyphrRelation` derive
(`relation.rs`). -/
def rel_field_init (rel_type : String) (rel : BoltRelation)
    (f : EntityFieldSpec α) : Except CyphrError α :=
  let prop_key := f.prop_override.getD f.name
  match rel_prop rel prop_key with
  | none => .error (CyphrError.missing_property prop_key rel_type)
  | some v =>
    match f.fT v with
    | .error e =>
      .error (e.with_context
        (rel_type ++ "::" ++ f.name ++ " (prop \x27" ++ prop_key ++ "\x27)"))
    | .ok x => .ok x

/-- The `from_rel` body emitted by the `CyphrRelation` derive. -/
def from_rel (rel_type : String) (fields : List (EntityFieldSpec α))
    (rel : BoltRelation) : Except CyphrError (List α) :=
  collectResults (rel_field_init rel_type rel) fields

/-! Parameter serialization (`to_cyphr_params.rs`). -/

/-- A field of a `ToCyphrParams` schema: ident, optional `prop`
override and which marker attributes are declared. -/
structure ParamFieldSpec where
  name : String
  prop_override : Option String
  skipAttr : Bool
  idAttr : Bool
deriving DecidableEq

/-- The compile-time `FieldInfo` computed by `parse_field`. -/
structure FieldInfo where
  prop_key : String
  skip : Bool
deriving DecidableEq

/-- Function `parse_field` of `to_cyphr_params.rs`: the field is
skipped when a `skip` or an `id` attribute is declared, and the key is
the `prop` override when declared, else the field ident. -/
def parse_field (f : ParamFieldSpec) : FieldInfo :=
  FieldInfo.mk (f.prop_override.getD f.name) (f.skipAttr || f.idAttr)

/-- The `to_params` body emitted by the `ToCyphrParams` derive: one
`HashMap::insert` per non-skipped field in field order, with the value
passed through `IntoCyphrValue::into_value` (modelled by `encode`). -/
def to_params (encode : α → BoltType) (fields : List (ParamFieldSpec × α)) :
    List (String × BoltType) :=
  fields.foldl
    (fun map fv =>
      let info := parse_field fv.fst
      if info.skip then map
      else mapInsert info.prop_key (encode fv.snd) map)
    []

/-- The sequence of insertions the emitted `to_params` performs, in
order: exactly one per non-skipped field, none for skipped fields. -/
def to_params_inserts (encode : α → BoltType)
    (fields : List (ParamFieldSpec × α)) : List (String × BoltType) :=
  fields.foldr
    (fun fv ops =>
      let info := parse_field fv.fst
      if info.skip then ops else (info.prop_key, encode fv.snd) :: ops)
    []

/-! Acceptance predicates: whether the active variant of a wire value
is one the given target type converts from.  Used to state the
wrong-variant theorems. -/

/-- The active variant is `Integer`. -/
def isInteger : BoltType → Bool
  | .Integer _ => true
  | _ => false

/-- The active variant is `Float`. -/
def isFloat : BoltType → Bool
  | .Float _ => true
  | _ => false

/-- The active variant is `String`. -/
def isString : BoltType → Bool
  | .String _ => true
  | _ => false

/-- The active variant is `Boolean`. -/
def isBoolean : BoltType → Bool
  | .Boolean _ => true
  | _ => false

/-- The active variant is `Bytes`. -/
def isBytes : BoltType → Bool
  | .Bytes _ => true
  | _ => false

/-- The active variant is `List`. -/
def isList : BoltType → Bool
  | .List _ => true
  | _ => false

/-- The active variant is `Map`. -/
def isMap : BoltType → Bool
  | .Map _ => true
  | _ => false

/-- The active variant is `Node`. -/
def isNode : BoltType → Bool
  | .Node _ => true
  | _ => false

/-- The active variant is `Relation`. -/
def isRelation : BoltType → Bool
  | .Relation _ => true
  | _ => false

/-- The active variant is `Path`. -/
def isPath : BoltType → Bool
  | .Path _ => true
  | _ => false

/-- The active variant is `Point2D`. -/
def isPoint2D : BoltType → Bool
  | .Point2D _ => true
  | _ => false

/-- The active variant is `Point3D`. -/
def isPoint3D : BoltType → Bool
  | .Point3D _ => true
  | _ => false

/-- The active variant is `Duration`. -/
def isDuration : BoltType → Bool
  | .Duration _ => true
  | _ => false

/-- The active variant is `Date`. -/
def isDate : BoltType → Bool
  | .Date _ => true
  | _ => false

/-- The active variant is `Time`. -/
def isTime : BoltType → Bool
  | .Time _ => true
  | _ => false

/-- The active variant is `LocalTime`. -/
def isLocalTime : BoltType → Bool
  | .LocalTime _ => true
  | _ => false

/-- The active variant is `LocalDateTime`. -/
def isLocalDateTime : BoltType → Bool
  | .LocalDateTime _ => true
  | _ => false

/-- The active variant is `DateTime` or `DateTimeZoneId` (the two
variants accepted by the `DateTime<FixedOffset>` impl). -/
def isDateTimeAny : BoltType → Bool
  | .DateTime _ => true
  | .DateTimeZoneId _ => true
  | _ => false

/-- The active variant is `List` of the given length (the shape the
tuple impls accept). -/
def isListOfLength (n : Nat) : BoltType → Bool
  | .List xs => xs.length == n
  | _ => false

/-! Wrong-variant lemmas, one per target type. -/

lemma i64_mismatch (v : BoltType) (h : isInteger v = false) :
    fromValue_i64 v = .error (CyphrError.TypeMismatch "Integer" (type_name v) "i64") := by
  cases v <;> simp_all [fromValue_i64, isInteger, CyphrError.type_mismatch]

lemma i32_mismatch (v : BoltType) (h : isInteger v = false) :
    fromValue_i32 v = .error (CyphrError.TypeMismatch "Integer" (type_name v) "i32") := by
  cases v <;> simp_all [fromValue_i32, isInteger, CyphrError.type_mismatch]

lemma u64_mismatch (v : BoltType) (h : isInteger v = false) :
    fromValue_u64 v = .error (CyphrError.TypeMismatch "Integer" (type_name v) "u64") := by
  cases v <;> simp_all [fromValue_u64, isInteger, CyphrError.type_mismatch]

lemma u32_mismatch (v : BoltType) (h : isInteger v = false) :
    fromValue_u32 v = .error (CyphrError.TypeMismatch "Integer" (type_name v) "u32") := by
  cases v <;> simp_all [fromValue_u32, isInteger, CyphrError.type_mismatch]

lemma i16_mismatch (v : BoltType) (h : isInteger v = false) :
    fromValue_i16 v = .error (CyphrError.TypeMismatch "Integer" (type_name v) "i16") := by
  cases v <;> simp_all [fromValue_i16, isInteger, CyphrError.type_mismatch]

lemma u16_mismatch (v : BoltType) (h : isInteger v = false) :
    fromValue_u16 v = .error (CyphrError.TypeMismatch "Integer" (type_name v) "u16") := by
  cases v <;> simp_all [fromValue_u16, isInteger, CyphrError.type_mismatch]

lemma i8_mismatch (v : BoltType) (h : isInteger v = false) :
    fromValue_i8 v = .error (CyphrError.TypeMismatch "Integer" (type_name v) "i8") := by
  cases v <;> simp_all [fromValue_i8, isInteger, CyphrError.type_mismatch]

lemma u8_mismatch (v : BoltType) (h : isInteger v = false) :
    fromValue_u8 v = .error (CyphrError.TypeMismatch "Integer" (type_name v) "u8") := by
  cases v <;> simp_all [fromValue_u8, isInteger, CyphrError.type_mismatch]

lemma f64_mismatch (v : BoltType) (h : isFloat v = false) :
    fromValue_f64 v = .error (CyphrError.TypeMismatch "Float" (type_name v) "f64") := by
  cases v <;> simp_all [fromValue_f64, isFloat, CyphrError.type_mismatch]

lemma f32_mismatch (cast32 : F64 → F32) (v : BoltType) (h : isFloat v = false) :
    fromValue_f32 cast32 v =
      .error (CyphrError.TypeMismatch "Float" (type_name v) "f32") := by
  cases v <;> simp_all [fromValue_f32, isFloat, CyphrError.type_mismatch]

lemma string_mismatch (v : BoltType) (h : isString v = false) :
    fromValue_String v =
      .error (CyphrError.TypeMismatch "String" (type_name v) "String") := by
  cases v <;> simp_all [fromValue_String, isString, CyphrError.type_mismatch]

lemma bool_mismatch (v : BoltType) (h : isBoolean v = false) :
    fromValue_bool v = .error (CyphrError.TypeMismatch "Boolean" (type_name v) "bool") := by
  cases v <;> simp_all [fromValue_bool, isBoolean, CyphrError.type_mismatch]

lemma vec_mismatch (fT : BoltType → Except CyphrError α) (v : BoltType)
    (h : isList v = false) :
    fromValue_Vec fT v = .error (CyphrError.TypeMismatch "List" (type_name v) "Vec<T>") := by
  cases v <;> simp_all [fromValue_Vec, isList, CyphrError.type_mismatch]

lemma hashmap_mismatch (fV : BoltType → Except CyphrError α) (v : BoltType)
    (h : isMap v = false) :
    fromValue_HashMap fV v =
      .error (CyphrError.TypeMismatch "Map" (type_name v) "HashMap<String, V>") := by
  cases v <;> simp_all [fromValue_HashMap, isMap, CyphrError.type_mismatch]

lemma node_wrapper_mismatch (LABEL : String)
    (from_node : BoltNode → Except CyphrError α) (v : BoltType)
    (h : isNode v = false) :
    fromValue_NodeWrapper LABEL from_node v =
      .error (CyphrError.TypeMismatch "Node" (type_name v) LABEL) := by
  cases v <;> simp_all [fromValue_NodeWrapper, isNode, CyphrError.type_mismatch]

lemma relation_wrapper_mismatch (TYPE : String)
    (from_rel : BoltRelation → Except CyphrError α) (v : BoltType)
    (h : isRelation v = false) :
    fromValue_RelationWrapper TYPE from_rel v =
      .error (CyphrError.TypeMismatch "Relationship" (type_name v) TYPE) := by
  cases v <;> simp_all [fromValue_RelationWrapper, isRelation, CyphrError.type_mismatch]

lemma pair_mismatch (fA : BoltType → Except CyphrError α)
    (fB : BoltType → Except CyphrError β) (v : BoltType) (h : isList v = false) :
    fromValue_Pair fA fB v =
      some (.error (CyphrError.TypeMismatch "List[2]" (type_name v) "tuple(A, B)")) := by
  cases v <;> simp_all [fromValue_Pair, isList, CyphrError.type_mismatch]

lemma triple_mismatch (fA : BoltType → Except CyphrError α)
    (fB : BoltType → Except CyphrError β) (fC : BoltType → Except CyphrError γ)
    (v : BoltType) (h : isList v = false) :
    fromValue_Triple fA fB fC v =
      some (.error (CyphrError.TypeMismatch "List[3]" (type_name v) "tuple(A, B, C)")) := by
  cases v <;> simp_all [fromValue_Triple, isList, CyphrError.type_mismatch]

lemma path_mismatch (from_node : BoltNode → Except CyphrError α) (v : BoltType)
    (h : isPath v = false) :
    fromValue_CyphrPath from_node v =
      .error (CyphrError.TypeMismatch "Path" (type_name v) "CyphrPath") := by
  cases v <;> simp_all [fromValue_CyphrPath, isPath, CyphrError.type_mismatch]

lemma bytes_mismatch (v : BoltType) (h : isBytes v = false) :
    fromValue_CyphrBytes v =
      .error (CyphrError.TypeMismatch "Bytes" (type_name v) "CyphrBytes") := by
  cases v <;> simp_all [fromValue_CyphrBytes, isBytes, CyphrError.type_mismatch]

lemma point2d_mismatch (v : BoltType) (h : isPoint2D v = false) :
    fromValue_Point2D v =
      .error (CyphrError.TypeMismatch "Point2D" (type_name v) "Point2D") := by
  cases v <;> simp_all [fromValue_Point2D, isPoint2D, CyphrError.type_mismatch]

lemma point3d_mismatch (v : BoltType) (h : isPoint3D v = false) :
    fromValue_Point3D v =
      .error (CyphrError.TypeMismatch "Point3D" (type_name v) "Point3D") := by
  cases v <;> simp_all [fromValue_Point3D, isPoint3D, CyphrError.type_mismatch]

lemma naive_date_mismatch (conv : BoltDate → Except String δ) (v : BoltType)
    (h : isDate v = false) :
    fromValue_NaiveDate conv v =
      .error (CyphrError.TypeMismatch "Date" (type_name v) "NaiveDate") := by
  cases v <;> simp_all [fromValue_NaiveDate, isDate, CyphrError.type_mismatch]

lemma naive_time_mismatch (conv : BoltLocalTime → δ) (v : BoltType)
    (h : isLocalTime v = false) :
    fromValue_NaiveTime conv v =
      .error (CyphrError.TypeMismatch "LocalTime" (type_name v) "NaiveTime") := by
  cases v <;> simp_all [fromValue_NaiveTime, isLocalTime, CyphrError.type_mismatch]

lemma time_pair_mismatch (conv : BoltTime → δ) (v : BoltType)
    (h : isTime v = false) :
    fromValue_TimePair conv v =
      .error (CyphrError.TypeMismatch "Time" (type_name v) "(NaiveTime, FixedOffset)") := by
  cases v <;> simp_all [fromValue_TimePair, isTime, CyphrError.type_mismatch]

lemma naive_datetime_mismatch (conv : BoltLocalDateTime → Except String δ)
    (v : BoltType) (h : isLocalDateTime v = false) :
    fromValue_NaiveDateTime conv v =
      .error (CyphrError.TypeMismatch "LocalDateTime" (type_name v) "NaiveDateTime") := by
  cases v <;> simp_all [fromValue_NaiveDateTime, isLocalDateTime, CyphrError.type_mismatch]

lemma datetime_mismatch (c1 : BoltDateTime → Except String δ)
    (c2 : BoltDateTimeZoneId → Except String δ) (v : BoltType)
    (h : isDateTimeAny v = false) :
    fromValue_DateTimeFixedOffset c1 c2 v =
      .error (CyphrError.TypeMismatch "DateTime" (type_name v) "DateTime<FixedOffset>") := by
  cases v <;> simp_all [fromValue_DateTimeFixedOffset, isDateTimeAny, CyphrError.type_mismatch]

lemma std_duration_mismatch (conv : BoltDuration → δ) (v : BoltType)
    (h : isDuration v = false) :
    fromValue_StdDuration conv v =
      .error (CyphrError.TypeMismatch "Duration" (type_name v) "std::time::Duration") := by
  cases v <;> simp_all [fromValue_StdDuration, isDuration, CyphrError.type_mismatch]

/-- C1: for every conversion target type and every wire value whose
active variant is not one the target accepts, `from_value` returns a
`TypeMismatch` error whose expected field is the fixed tag the target
requires and whose got field is the actual variant tag as produced by
`type_name`.  One conjunct per built-in impl of `value.rs`; generic
impls hold for every element conversion.  `Option<T>` accepts every
variant (`Null` maps to absence, anything else is delegated), so the
claim is vacuous for it and it has no conjunct. -/
theorem claim1_wrong_variant_mismatch (v : BoltType) :
    (isInteger v = false →
      fromValue_i64 v = .error (CyphrError.TypeMismatch "Integer" (type_name v) "i64") ∧
      fromValue_i32 v = .error (CyphrError.TypeMismatch "Integer" (type_name v) "i32") ∧
      fromValue_u64 v = .error (CyphrError.TypeMismatch "Integer" (type_name v) "u64") ∧
      fromValue_u32 v = .error (CyphrError.TypeMismatch "Integer" (type_name v) "u32") ∧
      fromValue_i16 v = .error (CyphrError.TypeMismatch "Integer" (type_name v) "i16") ∧
      fromValue_u16 v = .error (CyphrError.TypeMismatch "Integer" (type_name v) "u16") ∧
      fromValue_i8 v = .error (CyphrError.TypeMismatch "Integer" (type_name v) "i8") ∧
      fromValue_u8 v = .error (CyphrError.TypeMismatch "Integer" (type_name v) "u8")) ∧
    (isFloat v = false →
      fromValue_f64 v = .error (CyphrError.TypeMismatch "Float" (type_name v) "f64") ∧
      ∀ cast32 : F64 → F32,
        fromValue_f32 cast32 v =
          .error (CyphrError.TypeMismatch "Float" (type_name v) "f32")) ∧
    (isString v = false →
      fromValue_String v =
        .error (CyphrError.TypeMismatch "String" (type_name v) "String")) ∧
    (isBoolean v = false →
      fromValue_bool v =
        .error (CyphrError.TypeMismatch "Boolean" (type_name v) "bool")) ∧
    (isList v = false →
      (∀ (α : Type) (fT : BoltType → Except CyphrError α),
        fromValue_Vec fT v =
          .error (CyphrError.TypeMismatch "List" (type_name v) "Vec<T>")) ∧
      (∀ (α β : Type) (fA : BoltType → Except CyphrError α)
          (fB : BoltType → Except CyphrError β),
        fromValue_Pair fA fB v =
          some (.error (CyphrError.TypeMismatch "List[2]" (type_name v) "tuple(A, B)"))) ∧
      (∀ (α β γ : Type) (fA : BoltType → Except CyphrError α)
          (fB : BoltType → Except CyphrError β)
          (fC : BoltType → Except CyphrError γ),
        fromValue_Triple fA fB fC v =
          some (.error (CyphrError.TypeMismatch "List[3]" (type_name v) "tuple(A, B, C)")))) ∧
    (isMap v = false →
      ∀ (α : Type) (fV : BoltType → Except CyphrError α),
        fromValue_HashMap fV v =
          .error (CyphrError.TypeMismatch "Map" (type_name v) "HashMap<String, V>")) ∧
    (isNode v = false →
      ∀ (α : Type) (LABEL : String) (fn : BoltNode → Except CyphrError α),
        fromValue_NodeWrapper LABEL fn v =
          .error (CyphrError.TypeMismatch "Node" (type_name v) LABEL)) ∧
    (isRelation v = false →
      ∀ (α : Type) (TYPE : String) (fr : BoltRelation → Except CyphrError α),
        fromValue_RelationWrapper TYPE fr v =
          .error (CyphrError.TypeMismatch "Relationship" (type_name v) TYPE)) ∧
    (isPath v = false →
      ∀ (α : Type) (fn : BoltNode → Except CyphrError α),
        fromValue_CyphrPath fn v =
          .error (CyphrError.TypeMismatch "Path" (type_name v) "CyphrPath")) ∧
    (isBytes v = false →
      fromValue_CyphrBytes v =
        .error (CyphrError.TypeMismatch "Bytes" (type_name v) "CyphrBytes")) ∧
    (isPoint2D v = false →
      fromValue_Point2D v =
        .error (CyphrError.TypeMismatch "Point2D" (type_name v) "Point2D")) ∧
    (isPoint3D v = false →
      fromValue_Point3D v =
        .error (CyphrError.TypeMismatch "Point3D" (type_name v) "Point3D")) ∧
    (isDate v = false →
      ∀ (δ : Type) (conv : BoltDate → Except String δ),
        fromValue_NaiveDate conv v =
          .error (CyphrError.TypeMismatch "Date" (type_name v) "NaiveDate")) ∧
    (isLocalTime v = false →
      ∀ (δ : Type) (conv : BoltLocalTime → δ),
        fromValue_NaiveTime conv v =
          .error (CyphrError.TypeMismatch "LocalTime" (type_name v) "NaiveTime")) ∧
    (isTime v = false →
      ∀ (δ : Type) (conv : BoltTime → δ),
        fromValue_TimePair conv v =
          .error (CyphrError.TypeMismatch "Time" (type_name v) "(NaiveTime, FixedOffset)")) ∧
    (isLocalDateTime v = false →
      ∀ (δ : Type) (conv : BoltLocalDateTime → Except String δ),
        fromValue_NaiveDateTime conv v =
          .error (CyphrError.TypeMismatch "LocalDateTime" (type_name v) "NaiveDateTime")) ∧
    (isDateTimeAny v = false →
      ∀ (δ : Type) (c1 : BoltDateTime → Except String δ)
          (c2 : BoltDateTimeZoneId → Except String δ),
        fromValue_DateTimeFixedOffset c1 c2 v =
          .error (CyphrError.TypeMismatch "DateTime" (type_name v) "DateTime<FixedOffset>")) ∧
    (isDuration v = false →
      ∀ (δ : Type) (conv : BoltDuration → δ),
        fromValue_StdDuration conv v =
          .error (CyphrError.TypeMismatch "Duration" (type_name v) "std::time::Duration")) := by
  refine ⟨?_, ?_, ?_, ?_, ?_, ?_, ?_, ?_, ?_, ?_, ?_, ?_, ?_, ?_, ?_, ?_, ?_, ?_⟩
  · intro h
    exact ⟨i64_mismatch v h, i32_mismatch v h, u64_mismatch v h, u32_mismatch v h,
      i16_mismatch v h, u16_mismatch v h, i8_mismatch v h, u8_mismatch v h⟩
  · intro h
    exact ⟨f64_mismatch v h, fun cast32 => f32_mismatch cast32 v h⟩
  · exact string_mismatch v
  · exact bool_mismatch v
  · intro h
    exact ⟨fun α fT => vec_mismatch fT v h,
      fun α β fA fB => pair_mismatch fA fB v h,
      fun α β γ fA fB fC => triple_mismatch fA fB fC v h⟩
  · intro h
    exact fun α fV => hashmap_mismatch fV v h
  · intro h
    exact fun α LABEL fn => node_wrapper_mismatch LABEL fn v h
  · intro h
    exact fun α TYPE fr => relation_wrapper_mismatch TYPE fr v h
  · intro h
    exact fun α fn => path_mismatch fn v h
  · exact bytes_mismatch v
  · exact point2d_mismatch v
  · exact point3d_mismatch v
  · intro h
    exact fun δ conv => naive_date_mismatch conv v h
  · intro h
    exact fun δ conv => naive_time_mismatch conv v h
  · intro h
    exact fun δ conv => time_pair_mismatch conv v h
  · intro h
    exact fun δ conv => naive_datetime_mismatch conv v h
  · intro h
    exact fun δ c1 c2 => datetime_mismatch c1 c2 v h
  · intro h
    exact fun δ conv => std_duration_mismatch conv v h

/-- Witness for C1: the `Null` variant is accepted by none of the
listed targets, and every conversion applied to it reports the
mismatch with got field `Null`. -/
theorem claim1_witness :
    fromValue_i64 BoltType.Null =
      .error (CyphrError.TypeMismatch "Integer" "Null" "i64") ∧
    fromValue_f32 (fun x => x) BoltType.Null =
      .error (CyphrError.TypeMismatch "Float" "Null" "f32") ∧
    fromValue_String BoltType.Null =
      .error (CyphrError.TypeMismatch "String" "Null" "String") ∧
    fromValue_bool BoltType.Null =
      .error (CyphrError.TypeMismatch "Boolean" "Null" "bool") ∧
    fromValue_Vec fromValue_i64 BoltType.Null =
      .error (CyphrError.TypeMismatch "List" "Null" "Vec<T>") ∧
    fromValue_Pair fromValue_i64 fromValue_bool BoltType.Null =
      some (.error (CyphrError.TypeMismatch "List[2]" "Null" "tuple(A, B)")) ∧
    fromValue_HashMap fromValue_i64 BoltType.Null =
      .error (CyphrError.TypeMismatch "Map" "Null" "HashMap<String, V>") ∧
    fromValue_NodeWrapper "User" (fun _ => .ok (0 : Int)) BoltType.Null =
      .error (CyphrError.TypeMismatch "Node" "Null" "User") ∧
    fromValue_RelationWrapper "KNOWS" (fun _ => .ok (0 : Int)) BoltType.Null =
      .error (CyphrError.TypeMismatch "Relationship" "Null" "KNOWS") ∧
    fromValue_CyphrPath (fun _ => .ok (0 : Int)) BoltType.Null =
      .error (CyphrError.TypeMismatch "Path" "Null" "CyphrPath") ∧
    fromValue_CyphrBytes BoltType.Null =
      .error (CyphrError.TypeMismatch "Bytes" "Null" "CyphrBytes") ∧
    fromValue_Point2D BoltType.Null =
      .error (CyphrError.TypeMismatch "Point2D" "Null" "Point2D") ∧
    fromValue_NaiveDate (fun _ => .ok (0 : Int)) BoltType.Null =
      .error (CyphrError.TypeMismatch "Date" "Null" "NaiveDate") ∧
    fromValue_DateTimeFixedOffset (fun _ => .ok (0 : Int)) (fun _ => .ok (0 : Int))
        BoltType.Null =
      .error (CyphrError.TypeMismatch "DateTime" "Null" "DateTime<FixedOffset>") ∧
    fromValue_StdDuration (fun _ => (0 : Int)) BoltType.Null =
      .error (CyphrError.TypeMismatch "Duration" "Null" "std::time::Duration") := by
  have h := claim1_wrong_variant_mismatch BoltType.Null
  exact ⟨(h.1 rfl).1,
    (h.2.1 rfl).2 (fun x => x),
    h.2.2.1 rfl,
    h.2.2.2.1 rfl,
    (h.2.2.2.2.1 rfl).1 Int fromValue_i64,
    (h.2.2.2.2.1 rfl).2.1 Int Bool fromValue_i64 fromValue_bool,
    h.2.2.2.2.2.1 rfl Int fromValue_i64,
    h.2.2.2.2.2.2.1 rfl Int "User" (fun _ => .ok (0 : Int)),
    h.2.2.2.2.2.2.2.1 rfl Int "KNOWS" (fun _ => .ok (0 : Int)),
    h.2.2.2.2.2.2.2.2.1 rfl Int (fun _ => .ok (0 : Int)),
    h.2.2.2.2.2.2.2.2.2.1 rfl,
    h.2.2.2.2.2.2.2.2.2.2.1 rfl,
    h.2.2.2.2.2.2.2.2.2.2.2.2.1 rfl Int (fun _ => .ok (0 : Int)),
    h.2.2.2.2.2.2.2.2.2.2.2.2.2.2.2.2.1 rfl Int (fun _ => .ok (0 : Int)) (fun _ => .ok (0 : Int)),
    h.2.2.2.2.2.2.2.2.2.2.2.2.2.2.2.2.2 rfl Int (fun _ => (0 : Int))⟩

/-- C2: `Option<T>` conversion maps the `Null` variant to `Ok(None)`,
and on every non-null wire value it equals the inner `T` conversion
with a successful result wrapped in `Some` and the same error
otherwise. -/
theorem claim2_option_semantics (fT : BoltType → Except CyphrError α) :
    fromValue_Option fT BoltType.Null = .ok none ∧
    ∀ v : BoltType, v ≠ BoltType.Null →
      fromValue_Option fT v = Except.map some (fT v) := by
  refine ⟨rfl, ?_⟩
  intro v hv
  have unfold_match : ∀ r : Except CyphrError α,
      (match r with
        | .error e => (.error e : Except CyphrError (Option α))
        | .ok t => .ok (some t)) = Except.map some r := by
    intro r
    cases r <;> rfl
  cases v with
  | Null => exact absurd rfl hv
  | Boolean b => exact unfold_match (fT (.Boolean b))
  | Integer i => exact unfold_match (fT (.Integer i))
  | Float f => exact unfold_match (fT (.Float f))
  | String s => exact unfold_match (fT (.String s))
  | Bytes b => exact unfold_match (fT (.Bytes b))
  | List xs => exact unfold_match (fT (.List xs))
  | Map m => exact unfold_match (fT (.Map m))
  | Node n => exact unfold_match (fT (.Node n))
  | Relation r => exact unfold_match (fT (.Relation r))
  | UnboundedRelation r => exact unfold_match (fT (.UnboundedRelation r))
  | Path p => exact unfold_match (fT (.Path p))
  | Point2D p => exact unfold_match (fT (.Point2D p))
  | Point3D p => exact unfold_match (fT (.Point3D p))
  | Duration d => exact unfold_match (fT (.Duration d))
  | Date d => exact unfold_match (fT (.Date d))
  | Time t => exact unfold_match (fT (.Time t))
  | LocalTime t => exact unfold_match (fT (.LocalTime t))
  | LocalDateTime t => exact unfold_match (fT (.LocalDateTime t))
  | DateTime t => exact unfold_match (fT (.DateTime t))
  | DateTimeZoneId t => exact unfold_match (fT (.DateTimeZoneId t))

/-- Witness for C2 at a concrete non-null value and a concrete failing
value. -/
theorem claim2_witness :
    fromValue_Option fromValue_i64 (BoltType.Integer 5) = .ok (some 5) ∧
    fromValue_Option fromValue_i64 (BoltType.String "x") =
      .error (CyphrError.TypeMismatch "Integer" "String" "i64") := by
  have h1 := (claim2_option_semantics fromValue_i64).2 (BoltType.Integer 5)
    (by intro h; exact BoltType.noConfusion h)
  have h2 := (claim2_option_semantics fromValue_i64).2 (BoltType.String "x")
    (by intro h; exact BoltType.noConfusion h)
  exact ⟨by rw [h1]; rfl, by rw [h2]; rfl⟩

/-- C7: `with_context` always produces a `Context` variant owning the
prior error, at arbitrary nesting depth, and the rendering of a chain
of contexts around a root error is the colon-joined trail of the
context strings from outermost to innermost, ending in the root
rendering. -/
theorem claim7_context_chain :
    (∀ (e : CyphrError) (s : String),
      CyphrError.with_context e s = CyphrError.Context s e) ∧
    (∀ (c : String) (e : CyphrError),
      CyphrError.render (CyphrError.Context c e) = c ++ ": " ++ CyphrError.render e) ∧
    (∀ (ctxs : List String) (root : CyphrError),
      CyphrError.render (ctxs.foldr CyphrError.Context root) =
        ctxs.foldr (fun c acc => c ++ ": " ++ acc) (CyphrError.render root)) := by
  refine ⟨fun e s => rfl, fun c e => rfl, ?_⟩
  intro ctxs root
  induction ctxs with
  | nil => rfl
  | cons c cs ih => simp only [List.foldr, CyphrError.render, ih]

/-! Exact cast characterizations used by C6. -/

lemma wrapUnsigned_spec (w : Nat) (n : Int) :
    0 ≤ wrapUnsigned w n ∧ wrapUnsigned w n < 2 ^ w ∧
      ((2 : Int) ^ w) ∣ (n - wrapUnsigned w n) := by
  have hpos : (0 : Int) < 2 ^ w := by positivity
  refine ⟨Int.emod_nonneg n (ne_of_gt hpos), Int.emod_lt_of_pos n hpos, ?_⟩
  refine ⟨n / 2 ^ w, ?_⟩
  have := Int.emod_def n ((2 : Int) ^ w)
  unfold wrapUnsigned
  omega

lemma wrapSigned_spec (w : Nat) (hw : 0 < w) (n : Int) :
    -(2 ^ (w - 1)) ≤ wrapSigned w n ∧ wrapSigned w n < 2 ^ (w - 1) ∧
      ((2 : Int) ^ w) ∣ (n - wrapSigned w n) := by
  have hpos : (0 : Int) < 2 ^ w := by positivity
  have hhalfpos : (0 : Int) < 2 ^ (w - 1) := by positivity
  have hsplit : (2 : Int) ^ w = 2 ^ (w - 1) * 2 := by
    have hw1 : w - 1 + 1 = w := Nat.succ_pred_eq_of_pos hw
    calc (2 : Int) ^ w = 2 ^ (w - 1 + 1) := by rw [hw1]
    _ = 2 ^ (w - 1) * 2 := by rw [pow_succ]
  have hm0 : 0 ≤ n % 2 ^ w := Int.emod_nonneg n (ne_of_gt hpos)
  have hmlt : n % 2 ^ w < 2 ^ w := Int.emod_lt_of_pos n hpos
  have hdefm := Int.emod_def n ((2 : Int) ^ w)
  by_cases hc : n % 2 ^ w < 2 ^ (w - 1)
  · have hval : wrapSigned w n = n % 2 ^ w := by
      simp [wrapSigned, hc]
    refine ⟨?_, ?_, ⟨n / 2 ^ w, ?_⟩⟩
    · rw [hval]; omega
    · rw [hval]; exact hc
    · rw [hval]; omega
  · have hval : wrapSigned w n = n % 2 ^ w - 2 ^ w := by
      simp [wrapSigned, hc]
    refine ⟨?_, ?_, ⟨n / 2 ^ w + 1, ?_⟩⟩
    · rw [hval]; omega
    · rw [hval]; omega
    · rw [hval]
      have hexp : (2 : Int) ^ w * (n / 2 ^ w + 1) = 2 ^ w * (n / 2 ^ w) + 2 ^ w := by ring
      omega

/-- C6: for an `Integer` wire value holding an `i64`, conversion to
every integer width succeeds (never errors) and yields the unchecked
`as` cast of the stored value: the unique representative of the value
modulo `2 ^ w` inside the target range, with no range check. -/
theorem claim6_integer_narrowing (n : Int)
    (h1 : -(2 ^ 63) ≤ n) (h2 : n < 2 ^ 63) :
    fromValue_i64 (BoltType.Integer n) = .ok n ∧
    (fromValue_i32 (BoltType.Integer n) = .ok (wrapSigned 32 n) ∧
      -(2 ^ 31) ≤ wrapSigned 32 n ∧ wrapSigned 32 n < 2 ^ 31 ∧
      ((2 : Int) ^ 32) ∣ (n - wrapSigned 32 n)) ∧
    (fromValue_i16 (BoltType.Integer n) = .ok (wrapSigned 16 n) ∧
      -(2 ^ 15) ≤ wrapSigned 16 n ∧ wrapSigned 16 n < 2 ^ 15 ∧
      ((2 : Int) ^ 16) ∣ (n - wrapSigned 16 n)) ∧
    (fromValue_i8 (BoltType.Integer n) = .ok (wrapSigned 8 n) ∧
      -(2 ^ 7) ≤ wrapSigned 8 n ∧ wrapSigned 8 n < 2 ^ 7 ∧
      ((2 : Int) ^ 8) ∣ (n - wrapSigned 8 n)) ∧
    (fromValue_u64 (BoltType.Integer n) = .ok (wrapUnsigned 64 n) ∧
      0 ≤ wrapUnsigned 64 n ∧ wrapUnsigned 64 n < 2 ^ 64 ∧
      ((2 : Int) ^ 64) ∣ (n - wrapUnsigned 64 n)) ∧
    (fromValue_u32 (BoltType.Integer n) = .ok (wrapUnsigned 32 n) ∧
      0 ≤ wrapUnsigned 32 n ∧ wrapUnsigned 32 n < 2 ^ 32 ∧
      ((2 : Int) ^ 32) ∣ (n - wrapUnsigned 32 n)) ∧
    (fromValue_u16 (BoltType.Integer n) = .ok (wrapUnsigned 16 n) ∧
      0 ≤ wrapUnsigned 16 n ∧ wrapUnsigned 16 n < 2 ^ 16 ∧
      ((2 : Int) ^ 16) ∣ (n - wrapUnsigned 16 n)) ∧
    (fromValue_u8 (BoltType.Integer n) = .ok (wrapUnsigned 8 n) ∧
      0 ≤ wrapUnsigned 8 n ∧ wrapUnsigned 8 n < 2 ^ 8 ∧
      ((2 : Int) ^ 8) ∣ (n - wrapUnsigned 8 n)) := by
  refine ⟨rfl, ⟨rfl, ?_⟩, ⟨rfl, ?_⟩, ⟨rfl, ?_⟩, ⟨rfl, ?_⟩, ⟨rfl, ?_⟩, ⟨rfl, ?_⟩, ⟨rfl, ?_⟩⟩
  · exact wrapSigned_spec 32 (by norm_num) n
  · exact wrapSigned_spec 16 (by norm_num) n
  · exact wrapSigned_spec 8 (by norm_num) n
  · exact wrapUnsigned_spec 64 n
  · exact wrapUnsigned_spec 32 n
  · exact wrapUnsigned_spec 16 n
  · exact wrapUnsigned_spec 8 n

/-- Witness for C6 at the stored value 1000: narrowing to `i8`
truncates and reinterprets (1000 mod 256 = 232, read signed as -24)
and narrowing to `u8` truncates (232), with no error. -/
theorem claim6_witness :
    (-(2 ^ 63) ≤ (1000 : Int)) ∧ ((1000 : Int) < 2 ^ 63) ∧
    fromValue_i8 (BoltType.Integer 1000) = .ok (-24) ∧
    fromValue_u8 (BoltType.Integer 1000) = .ok 232 := by
  have h := claim6_integer_narrowing 1000 (by norm_num) (by norm_num)
  refine ⟨by norm_num, by norm_num, ?_, ?_⟩
  · have := h.2.2.2.1.1
    rw [this]
    rfl
  · have := h.2.2.2.2.2.2.2.1
    rw [this]
    rfl

/-! Error-propagation helpers for the sequenced conversions. -/

lemma collectResults_error_of_mem (f : α → Except CyphrError β) (l : List α)
    (x : α) (hmem : x ∈ l) (e : CyphrError) (hx : f x = .error e) :
    ∃ e2, collectResults f l = .error e2 := by
  induction l with
  | nil => cases hmem
  | cons y ys ih =>
    cases hmy : f y with
    | error e2 => exact ⟨e2, by simp [collectResults, hmy]⟩
    | ok b =>
      rcases List.mem_cons.mp hmem with h | h
      · rw [← h] at hmy
        rw [hmy] at hx
        cases hx
      · rcases ih h with ⟨e2, he2⟩
        exact ⟨e2, by simp [collectResults, hmy, he2]⟩

/-- C3: in derived record projection, a required field whose key is
absent from the record fails with `MissingField(key, struct-name)`; a
required field whose value fails to convert fails with a `Context`
wrapping of the conversion error whose outer message starts with
`StructName::fieldName`; and any failing field initializer makes the
whole projection fail, so no partial struct is returned. -/
theorem claim3_required_field (struct_name key : String)
    (fT : BoltType → Except CyphrError α) (record : Row)
    (fields : List (FieldSpec α)) :
    (get_value record key = none →
      fieldInit struct_name record (FieldSpec.mk key (FieldKind.required fT)) =
        .error (CyphrError.MissingField key struct_name)) ∧
    (∀ v e, get_value record key = some v → fT v = .error e →
      fieldInit struct_name record (FieldSpec.mk key (FieldKind.required fT)) =
        .error (CyphrError.Context (struct_name ++ "::" ++ key) e) ∧
      ∃ rest,
        CyphrError.render (CyphrError.Context (struct_name ++ "::" ++ key) e) =
          struct_name ++ "::" ++ key ++ rest) ∧
    (∀ f ∈ fields, (∃ e0, fieldInit struct_name record f = .error e0) →
      ∃ e2, from_record struct_name fields record = .error e2) := by
  refine ⟨?_, ?_, ?_⟩
  · intro h
    simp [fieldInit, h, CyphrError.missing_field]
  · intro v e hv he
    constructor
    · simp [fieldInit, hv, he, CyphrError.with_context]
    · refine ⟨": " ++ CyphrError.render e, ?_⟩
      simp [CyphrError.render, String.append_assoc]
  · intro f hf he
    rcases he with ⟨e0, he0⟩
    exact collectResults_error_of_mem (fieldInit struct_name record) fields f hf e0 he0

/-- Witness for C3: a record lacking the key `missing` fails the whole
projection with `MissingField`, and a record whose `age` column holds
a string fails with a `Context`-wrapped `TypeMismatch` whose outer
message is `UserRow::age`. -/
theorem claim3_witness :
    fieldInit "UserRow" [("name", BoltType.String "Alice")]
      (FieldSpec.mk "missing" (FieldKind.required fromValue_i64)) =
      .error (CyphrError.MissingField "missing" "UserRow") ∧
    fieldInit "UserRow" [("age", BoltType.String "x")]
      (FieldSpec.mk "age" (FieldKind.required fromValue_i64)) =
      .error (CyphrError.Context ("UserRow" ++ "::" ++ "age")
        (CyphrError.TypeMismatch "Integer" "String" "i64")) ∧
    ∃ e2, from_record "UserRow"
      [FieldSpec.mk "missing" (FieldKind.required fromValue_i64)]
      [("name", BoltType.String "Alice")] = .error e2 := by
  have h := claim3_required_field "UserRow" "missing" fromValue_i64
    [("name", BoltType.String "Alice")]
    [FieldSpec.mk "missing" (FieldKind.required fromValue_i64)]
  have h2 := claim3_required_field "UserRow" "age" fromValue_i64
    [("age", BoltType.String "x")] []
  refine ⟨h.1 rfl, ?_, ?_⟩
  · exact (h2.2.1 (BoltType.String "x")
      (CyphrError.TypeMismatch "Integer" "String" "i64") rfl rfl).1
  · exact h.2.2 (FieldSpec.mk "missing" (FieldKind.required fromValue_i64))
      (by simp) ⟨CyphrError.MissingField "missing" "UserRow", h.1 rfl⟩

/-- C4 counterexample: a field named `age` with the explicit override
`user_age` resolves to `user_age` under the node and relation derives,
but the `FromCyphr` record-projection derive resolves it to `age` (the
override is never consulted): with a record that holds the column
`user_age`, the required-field extraction fails with
`MissingField("age", ..)` instead of reading the overridden column. -/
theorem claim4_counterexample :
    fromCyphrKey (SchemaField.mk "age" (some "user_age")) = "age" ∧
    nodeKey (SchemaField.mk "age" (some "user_age")) = "user_age" ∧
    relationKey (SchemaField.mk "age" (some "user_age")) = "user_age" ∧
    "age" ≠ "user_age" ∧
    fieldInit "S" [("user_age", BoltType.Integer 30)]
      (FieldSpec.mk "age" (FieldKind.required fromValue_i64)) =
      .error (CyphrError.MissingField "age" "S") :=
  ⟨rfl, rfl, rfl, by decide, rfl⟩

/-- C4 as amended: the override-else-field-name resolution holds for
node-property extraction, relationship-property extraction and
parameter serialization, while record projection (`FromCyphr`) always
uses the field's own name verbatim and ignores any override. -/
theorem claim4_amended_key_resolution (f : SchemaField) (sk idt : Bool) :
    nodeKey f = f.prop_override.getD f.name ∧
    relationKey f = f.prop_override.getD f.name ∧
    (parse_field (ParamFieldSpec.mk f.name f.prop_override sk idt)).prop_key =
      f.prop_override.getD f.name ∧
    fromCyphrKey f = f.name :=
  ⟨rfl, rfl, rfl, rfl⟩

/-- C5 counterexample: the `DateTime<FixedOffset>` target converts
successfully from two distinct wire variants, `DateTime` and
`DateTimeZoneId` (here with backend reinterpretations that succeed, as
they do on valid backend data), so it is not one-to-one with exactly
one matching variant failing with `TypeMismatch` on every other
variant. -/
theorem claim5_counterexample :
    fromValue_DateTimeFixedOffset
      (fun _ => Except.ok (0 : Int)) (fun _ => Except.ok (7 : Int))
      (BoltType.DateTime (BoltDateTime.mk 0 0 0)) = .ok 0 ∧
    fromValue_DateTimeFixedOffset
      (fun _ => Except.ok (0 : Int)) (fun _ => Except.ok (7 : Int))
      (BoltType.DateTimeZoneId (BoltDateTimeZoneId.mk 0 0 "UTC")) = .ok 7 :=
  ⟨rfl, rfl⟩

/-- C5 as amended: every temporal, spatial and duration target accepts
exactly its matching variant and fails with `TypeMismatch` on every
other variant, except `DateTime<FixedOffset>`, which accepts both the
`DateTime` and the `DateTimeZoneId` variants (normalizing both to the
one host representation); and every backend reinterpretation failure
during a date or time conversion is wrapped as a `Mapping` error
carrying the original message. -/
theorem claim5_amended_temporal_spatial :
    (∀ (δ : Type) (conv : BoltDate → Except String δ),
      (∀ v, isDate v = false → fromValue_NaiveDate conv v =
        .error (CyphrError.TypeMismatch "Date" (type_name v) "NaiveDate")) ∧
      (∀ d x, conv d = .ok x →
        fromValue_NaiveDate conv (BoltType.Date d) = .ok x) ∧
      (∀ d m, conv d = .error m →
        fromValue_NaiveDate conv (BoltType.Date d) =
          .error (CyphrError.Mapping ("BoltDate -> NaiveDate: " ++ m)))) ∧
    (∀ (δ : Type) (conv : BoltLocalTime → δ),
      (∀ v, isLocalTime v = false → fromValue_NaiveTime conv v =
        .error (CyphrError.TypeMismatch "LocalTime" (type_name v) "NaiveTime")) ∧
      (∀ t, fromValue_NaiveTime conv (BoltType.LocalTime t) = .ok (conv t))) ∧
    (∀ (δ : Type) (conv : BoltTime → δ),
      (∀ v, isTime v = false → fromValue_TimePair conv v =
        .error (CyphrError.TypeMismatch "Time" (type_name v) "(NaiveTime, FixedOffset)")) ∧
      (∀ t, fromValue_TimePair conv (BoltType.Time t) = .ok (conv t))) ∧
    (∀ (δ : Type) (conv : BoltLocalDateTime → Except String δ),
      (∀ v, isLocalDateTime v = false → fromValue_NaiveDateTime conv v =
        .error (CyphrError.TypeMismatch "LocalDateTime" (type_name v) "NaiveDateTime")) ∧
      (∀ dt x, conv dt = .ok x →
        fromValue_NaiveDateTime conv (BoltType.LocalDateTime dt) = .ok x) ∧
      (∀ dt m, conv dt = .error m →
        fromValue_NaiveDateTime conv (BoltType.LocalDateTime dt) =
          .error (CyphrError.Mapping ("BoltLocalDateTime -> NaiveDateTime: " ++ m)))) ∧
    (∀ (δ : Type) (c1 : BoltDateTime → Except String δ)
        (c2 : BoltDateTimeZoneId → Except String δ),
      (∀ v, isDateTimeAny v = false → fromValue_DateTimeFixedOffset c1 c2 v =
        .error (CyphrError.TypeMismatch "DateTime" (type_name v) "DateTime<FixedOffset>")) ∧
      (∀ dt x, c1 dt = .ok x →
        fromValue_DateTimeFixedOffset c1 c2 (BoltType.DateTime dt) = .ok x) ∧
      (∀ dt m, c1 dt = .error m →
        fromValue_DateTimeFixedOffset c1 c2 (BoltType.DateTime dt) =
          .error (CyphrError.Mapping ("BoltDateTime -> DateTime<FixedOffset>: " ++ m))) ∧
      (∀ dt x, c2 dt = .ok x →
        fromValue_DateTimeFixedOffset c1 c2 (BoltType.DateTimeZoneId dt) = .ok x) ∧
      (∀ dt m, c2 dt = .error m →
        fromValue_DateTimeFixedOffset c1 c2 (BoltType.DateTimeZoneId dt) =
          .error (CyphrError.Mapping ("BoltDateTimeZoneId -> DateTime<FixedOffset>: " ++ m)))) ∧
    (∀ (δ : Type) (conv : BoltDuration → δ),
      (∀ v, isDuration v = false → fromValue_StdDuration conv v =
        .error (CyphrError.TypeMismatch "Duration" (type_name v) "std::time::Duration")) ∧
      (∀ d, fromValue_StdDuration conv (BoltType.Duration d) = .ok (conv d))) ∧
    ((∀ v, isPoint2D v = false → fromValue_Point2D v =
        .error (CyphrError.TypeMismatch "Point2D" (type_name v) "Point2D")) ∧
      (∀ p, fromValue_Point2D (BoltType.Point2D p) =
        .ok (Point2D.mk p.sr_id p.x p.y))) ∧
    ((∀ v, isPoint3D v = false → fromValue_Point3D v =
        .error (CyphrError.TypeMismatch "Point3D" (type_name v) "Point3D")) ∧
      (∀ p, fromValue_Point3D (BoltType.Point3D p) =
        .ok (Point3D.mk p.sr_id p.x p.y p.z))) := by
  refine ⟨?_, ?_, ?_, ?_, ?_, ?_, ?_, ?_⟩
  · intro δ conv
    refine ⟨fun v h => naive_date_mismatch conv v h, ?_, ?_⟩
    · intro d x h
      simp [fromValue_NaiveDate, h]
    · intro d m h
      simp [fromValue_NaiveDate, h]
  · intro δ conv
    exact ⟨fun v h => naive_time_mismatch conv v h, fun t => rfl⟩
  · intro δ conv
    exact ⟨fun v h => time_pair_mismatch conv v h, fun t => rfl⟩
  · intro δ conv
    refine ⟨fun v h => naive_datetime_mismatch conv v h, ?_, ?_⟩
    · intro dt x h
      simp [fromValue_NaiveDateTime, h]
    · intro dt m h
      simp [fromValue_NaiveDateTime, h]
  · intro δ c1 c2
    refine ⟨fun v h => datetime_mismatch c1 c2 v h, ?_, ?_, ?_, ?_⟩
    · intro dt x h
      simp [fromValue_DateTimeFixedOffset, h]
    · intro dt m h
      simp [fromValue_DateTimeFixedOffset, h]
    · intro dt x h
      simp [fromValue_DateTimeFixedOffset, h]
    · intro dt m h
      simp [fromValue_DateTimeFixedOffset, h]
  · intro δ conv
    exact ⟨fun v h => std_duration_mismatch conv v h, fun d => rfl⟩
  · exact ⟨fun v h => point2d_mismatch v h, fun p => rfl⟩
  · exact ⟨fun v h => point3d_mismatch v h, fun p => rfl⟩

/-- Witness for C5 (amended): concrete mismatch, success and
mapping-wrap outcomes. -/
theorem claim5_witness :
    fromValue_NaiveDate (fun _ => Except.ok (0 : Int)) (BoltType.Integer 1) =
      .error (CyphrError.TypeMismatch "Date" "Integer" "NaiveDate") ∧
    fromValue_NaiveDate
        (fun _ => (Except.error "out of range" : Except String Int))
        (BoltType.Date (BoltDate.mk 99)) =
      .error (CyphrError.Mapping ("BoltDate -> NaiveDate: " ++ "out of range")) ∧
    fromValue_DateTimeFixedOffset
        (fun _ => Except.ok (3 : Int))
        (fun _ => (Except.error "bad zone" : Except String Int))
        (BoltType.DateTimeZoneId (BoltDateTimeZoneId.mk 1 2 "Mars/Base")) =
      .error (CyphrError.Mapping ("BoltDateTimeZoneId -> DateTime<FixedOffset>: " ++ "bad zone")) := by
  have h := claim5_amended_temporal_spatial
  refine ⟨?_, ?_, ?_⟩
  · exact (h.1 Int (fun _ => Except.ok 0)).1 (BoltType.Integer 1) rfl
  · exact (h.1 Int (fun _ => Except.error "out of range")).2.2 (BoltDate.mk 99)
      "out of range" rfl
  · exact (h.2.2.2.2.1 Int (fun _ => Except.ok 3) (fun _ => Except.error "bad zone")).2.2.2.2
      (BoltDateTimeZoneId.mk 1 2 "Mars/Base") "bad zone" rfl

lemma collectResults_ok_forall2 (f : α → Except CyphrError β) (l : List α)
    (ys : List β) (h : collectResults f l = .ok ys) :
    List.Forall₂ (fun x y => f x = .ok y) l ys := by
  induction l generalizing ys with
  | nil =>
    simp [collectResults] at h
    rw [h]
    exact List.Forall₂.nil
  | cons x xs ih =>
    cases hx : f x with
    | error e => simp [collectResults, hx] at h
    | ok y =>
      cases hxs : collectResults f xs with
      | error e => simp [collectResults, hx, hxs] at h
      | ok zs =>
        simp [collectResults, hx, hxs] at h
        rw [← h]
        exact List.Forall₂.cons hx (ih zs hxs)

lemma collectResults_first_error (f : α → Except CyphrError β)
    (l1 : List α) (x : α) (l2 : List α) (e : CyphrError)
    (hok : ∀ m ∈ l1, ∃ y, f m = .ok y) (hx : f x = .error e) :
    collectResults f (l1 ++ x :: l2) = .error e := by
  induction l1 with
  | nil => simp [collectResults, hx]
  | cons m ms ih =>
    rcases hok m (List.mem_cons_self m ms) with ⟨y, hy⟩
    have ihh := ih fun a ha => hok a (List.mem_cons_of_mem m ha)
    simp [collectResults, hy, ihh]

/-- C8: decoding a `Path` value decodes every contained node through
the node type's reconstruction, in order; when all succeed, the
decoded node sequence has the same length and pointwise order as the
path's node entries, the unbounded relationships are exposed
undecoded in backend order, and the raw index sequence is exposed
unmodified; when a node fails, the whole conversion fails with the
first failing node's error. -/
theorem claim8_path_reconstruction (from_node : BoltNode → Except CyphrError α)
    (p : BoltPath) :
    (∀ ns, collectResults from_node (pathNodes p) = .ok ns →
      fromValue_CyphrPath from_node (BoltType.Path p) =
        .ok (CyphrPath.mk ns (pathRels p) (pathIndices p)) ∧
      ns.length = (pathNodes p).length ∧
      List.Forall₂ (fun n x => from_node n = .ok x) (pathNodes p) ns) ∧
    (∀ l1 n l2 e, pathNodes p = l1 ++ n :: l2 →
      (∀ m ∈ l1, ∃ y, from_node m = .ok y) →
      from_node n = .error e →
      fromValue_CyphrPath from_node (BoltType.Path p) = .error e) := by
  constructor
  · intro ns h
    refine ⟨by simp [fromValue_CyphrPath, h], ?_,
      collectResults_ok_forall2 from_node (pathNodes p) ns h⟩
    exact (List.Forall₂.length_eq
      (collectResults_ok_forall2 from_node (pathNodes p) ns h)).symm
  · intro l1 n l2 e hsplit hok hx
    have herr : collectResults from_node (pathNodes p) = .error e := by
      rw [hsplit]
      exact collectResults_first_error from_node l1 n l2 e hok hx
    simp [fromValue_CyphrPath, herr]

/-- Witness for C8 on a concrete two-node, one-relationship path:
successful decoding preserves length, relationship and indices, and a
failing node decoder propagates its error. -/
theorem claim8_witness :
    (collectResults (fun n => (Except.ok n : Except CyphrError BoltNode))
      (pathNodes (BoltPath.mk
        [BoltType.Node (BoltNode.mk 1 ["User"] [("name", BoltType.String "Mark")]),
         BoltType.Node (BoltNode.mk 2 ["User"] [("name", BoltType.String "James")])]
        [BoltType.UnboundedRelation (BoltUnboundedRelation.mk 10 "KNOWS"
          [("since", BoltType.Integer 2020)])]
        [BoltType.Integer 1, BoltType.Integer 1])) =
      .ok [BoltNode.mk 1 ["User"] [("name", BoltType.String "Mark")],
           BoltNode.mk 2 ["User"] [("name", BoltType.String "James")]]) ∧
    fromValue_CyphrPath (fun n => (Except.ok n : Except CyphrError BoltNode))
      (BoltType.Path (BoltPath.mk
        [BoltType.Node (BoltNode.mk 1 ["User"] [("name", BoltType.String "Mark")]),
         BoltType.Node (BoltNode.mk 2 ["User"] [("name", BoltType.String "James")])]
        [BoltType.UnboundedRelation (BoltUnboundedRelation.mk 10 "KNOWS"
          [("since", BoltType.Integer 2020)])]
        [BoltType.Integer 1, BoltType.Integer 1])) =
      .ok (CyphrPath.mk
        [BoltNode.mk 1 ["User"] [("name", BoltType.String "Mark")],
         BoltNode.mk 2 ["User"] [("name", BoltType.String "James")]]
        [BoltUnboundedRelation.mk 10 "KNOWS" [("since", BoltType.Integer 2020)]]
        [1, 1]) ∧
    fromValue_CyphrPath
      (fun _ => (Except.error (CyphrError.Mapping "boom") : Except CyphrError Int))
      (BoltType.Path (BoltPath.mk
        [BoltType.Node (BoltNode.mk 1 ["User"] [("name", BoltType.String "Mark")]),
         BoltType.Node (BoltNode.mk 2 ["User"] [("name", BoltType.String "James")])]
        [] [])) =
      .error (CyphrError.Mapping "boom") := by
  refine ⟨rfl, ?_, ?_⟩
  · exact ((claim8_path_reconstruction
      (fun n => (Except.ok n : Except CyphrError BoltNode))
      (BoltPath.mk
        [BoltType.Node (BoltNode.mk 1 ["User"] [("name", BoltType.String "Mark")]),
         BoltType.Node (BoltNode.mk 2 ["User"] [("name", BoltType.String "James")])]
        [BoltType.UnboundedRelation (BoltUnboundedRelation.mk 10 "KNOWS"
          [("since", BoltType.Integer 2020)])]
        [BoltType.Integer 1, BoltType.Integer 1])).1
      [BoltNode.mk 1 ["User"] [("name", BoltType.String "Mark")],
       BoltNode.mk 2 ["User"] [("name", BoltType.String "James")]] rfl).1
  · exact (claim8_path_reconstruction
      (fun _ => (Except.error (CyphrError.Mapping "boom") : Except CyphrError Int))
      (BoltPath.mk
        [BoltType.Node (BoltNode.mk 1 ["User"] [("name", BoltType.String "Mark")]),
         BoltType.Node (BoltNode.mk 2 ["User"] [("name", BoltType.String "James")])]
        [] [])).2
      [] (BoltNode.mk 1 ["User"] [("name", BoltType.String "Mark")])
      [BoltNode.mk 2 ["User"] [("name", BoltType.String "James")]]
      (CyphrError.Mapping "boom") rfl (by simp) rfl

/-! Lookup lemmas for the `HashMap` model. -/

lemma mapLookup_mapInsert_self (k : String) (v : α) (m : List (String × α)) :
    mapLookup k (mapInsert k v m) = some v := by
  induction m with
  | nil => simp [mapInsert, mapLookup]
  | cons kv rest ih =>
    obtain ⟨k2, v2⟩ := kv
    by_cases h : k2 = k
    · simp [mapInsert, h, mapLookup]
    · simp [mapInsert, h, mapLookup, ih]

lemma mapLookup_mapInsert_ne (k k2 : String) (hne : k2 ≠ k) (v : α)
    (m : List (String × α)) :
    mapLookup k2 (mapInsert k v m) = mapLookup k2 m := by
  have hkk : ¬ (k = k2) := fun hh => hne hh.symm
  induction m with
  | nil => simp [mapInsert, mapLookup, hkk]
  | cons kv rest ih =>
    obtain ⟨k3, v3⟩ := kv
    by_cases h : k3 = k
    · by_cases h2 : k3 = k2
      · exact absurd (h2.symm.trans h) hne
      · simp [mapInsert, h, mapLookup, h2, hkk]
    · by_cases h2 : k3 = k2
      · subst h2
        simp [mapInsert, mapLookup, h]
      · simp [mapInsert, h, mapLookup, h2, ih]

lemma foldl_insert_lookup_none (ops : List (String × BoltType))
    (m : List (String × BoltType)) (k : String)
    (h : ∀ kv ∈ ops, kv.fst ≠ k) :
    mapLookup k (ops.foldl (fun acc kv => mapInsert kv.fst kv.snd acc) m) =
      mapLookup k m := by
  induction ops generalizing m with
  | nil => rfl
  | cons kv rest ih =>
    have h1 : kv.fst ≠ k := h kv (List.mem_cons_self kv rest)
    have step := ih (mapInsert kv.fst kv.snd m)
      (fun a ha => h a (List.mem_cons_of_mem kv ha))
    rw [List.foldl_cons, step, mapLookup_mapInsert_ne kv.fst k (Ne.symm h1) kv.snd m]

lemma foldl_insert_lookup_mem (ops : List (String × BoltType))
    (m : List (String × BoltType)) (k : String) (v : BoltType)
    (hnd : (ops.map Prod.fst).Nodup) (hmem : (k, v) ∈ ops) :
    mapLookup k (ops.foldl (fun acc kv => mapInsert kv.fst kv.snd acc) m) =
      some v := by
  induction ops generalizing m with
  | nil => cases hmem
  | cons kv rest ih =>
    have hnd2 : kv.fst ∉ rest.map Prod.fst ∧ (rest.map Prod.fst).Nodup := by
      simpa [List.nodup_cons] using hnd
    rcases List.mem_cons.mp hmem with h | h
    · have hk : kv.fst = k := by rw [← h]
      have hnotin : ∀ kv2 ∈ rest, kv2.fst ≠ k := by
        intro kv2 hkv2 heq
        exact hnd2.1 (by rw [hk]; exact heq ▸ List.mem_map_of_mem Prod.fst hkv2)
      rw [List.foldl_cons, foldl_insert_lookup_none rest _ k hnotin, ← h]
      exact mapLookup_mapInsert_self k v m
    · exact ih (mapInsert kv.fst kv.snd m) hnd2.2 h

/-! Relating the emitted `to_params` body to its insertion sequence. -/

lemma to_params_foldl_shape (encode : α → BoltType)
    (fields : List (ParamFieldSpec × α)) (m : List (String × BoltType)) :
    fields.foldl
      (fun map fv =>
        let info := parse_field fv.fst
        if info.skip then map
        else mapInsert info.prop_key (encode fv.snd) map)
      m =
    (to_params_inserts encode fields).foldl
      (fun acc kv => mapInsert kv.fst kv.snd acc) m := by
  induction fields generalizing m with
  | nil => rfl
  | cons fv rest ih =>
    by_cases h : (parse_field fv.fst).skip
    · simp [to_params_inserts, h, ih]
    · simp [to_params_inserts, h, ih]

lemma to_params_inserts_cons (encode : α → BoltType) (fv : ParamFieldSpec × α)
    (rest : List (ParamFieldSpec × α)) :
    to_params_inserts encode (fv :: rest) =
      if (parse_field fv.fst).skip then to_params_inserts encode rest
      else ((parse_field fv.fst).prop_key, encode fv.snd) ::
        to_params_inserts encode rest := rfl

lemma to_params_inserts_map_filter (encode : α → BoltType)
    (fields : List (ParamFieldSpec × α)) :
    to_params_inserts encode fields =
      (fields.filter fun fv => ! (parse_field fv.fst).skip).map
        (fun fv => ((parse_field fv.fst).prop_key, encode fv.snd)) := by
  induction fields with
  | nil => rfl
  | cons fv rest ih =>
    by_cases h : (parse_field fv.fst).skip
    · simp [to_params_inserts_cons, List.filter_cons, h, ih]
    · simp [to_params_inserts_cons, List.filter_cons, h, ih]

/-- C9: the emitted `to_params` performs exactly one insertion per
field not marked `skip` or `id`, in field order, with the
overridden-or-default key and the encoded field value, and no other
insertion; consequently (when the kept keys are distinct) the
resulting map binds each kept field's key to its encoded value and
binds nothing else. -/
theorem claim9_to_params (encode : α → BoltType)
    (fields : List (ParamFieldSpec × α))
    (hnd : ((fields.filter fun fv => ! (parse_field fv.fst).skip).map
      fun fv => (parse_field fv.fst).prop_key).Nodup) :
    to_params_inserts encode fields =
      (fields.filter fun fv => ! (parse_field fv.fst).skip).map
        (fun fv => ((parse_field fv.fst).prop_key, encode fv.snd)) ∧
    (∀ fv ∈ fields, (parse_field fv.fst).skip = false →
      mapLookup (parse_field fv.fst).prop_key (to_params encode fields) =
        some (encode fv.snd)) ∧
    (∀ k, (∀ fv ∈ fields, (parse_field fv.fst).skip = false →
        (parse_field fv.fst).prop_key ≠ k) →
      mapLookup k (to_params encode fields) = none) := by
  have hshape : to_params encode fields =
      (to_params_inserts encode fields).foldl
        (fun acc kv => mapInsert kv.fst kv.snd acc) [] :=
    to_params_foldl_shape encode fields []
  have hkeys : (to_params_inserts encode fields).map Prod.fst =
      (fields.filter fun fv => ! (parse_field fv.fst).skip).map
        fun fv => (parse_field fv.fst).prop_key := by
    rw [to_params_inserts_map_filter, List.map_map]
    rfl
  refine ⟨to_params_inserts_map_filter encode fields, ?_, ?_⟩
  · intro fv hmem hskip
    have hfil : fv ∈ fields.filter fun fv => ! (parse_field fv.fst).skip := by
      rw [List.mem_filter]
      exact ⟨hmem, by rw [hskip]; rfl⟩
    have hins : ((parse_field fv.fst).prop_key, encode fv.snd) ∈
        to_params_inserts encode fields := by
      rw [to_params_inserts_map_filter]
      exact List.mem_map_of_mem _ hfil
    rw [hshape]
    exact foldl_insert_lookup_mem (to_params_inserts encode fields) []
      (parse_field fv.fst).prop_key (encode fv.snd) (by rw [hkeys]; exact hnd) hins
  · intro k hk
    rw [hshape]
    rw [foldl_insert_lookup_none (to_params_inserts encode fields) [] k ?_]
    · rfl
    · intro kv hkv
      rw [to_params_inserts_map_filter] at hkv
      rcases List.mem_map.mp hkv with ⟨fv, hfv, hfveq⟩
      rcases List.mem_filter.mp hfv with ⟨hfvmem, hfvkeep⟩
      have hskip : (parse_field fv.fst).skip = false := by
        revert hfvkeep
        cases (parse_field fv.fst).skip <;> simp
      have := hk fv hfvmem hskip
      rw [← hfveq]
      exact this

/-- Witness for C9: serializing a struct with an `id`-marked field,
a plain `name` field and a plain `age` field omits the id field and
binds exactly `name` and `age`. -/
theorem claim9_witness :
    mapLookup "name" (to_params (fun x => x)
      [(ParamFieldSpec.mk "internal_id" none false true, BoltType.Integer 999),
       (ParamFieldSpec.mk "name" none false false, BoltType.String "Alice"),
       (ParamFieldSpec.mk "age" none false false, BoltType.Integer 30)]) =
      some (BoltType.String "Alice") ∧
    mapLookup "internal_id" (to_params (fun x => x)
      [(ParamFieldSpec.mk "internal_id" none false true, BoltType.Integer 999),
       (ParamFieldSpec.mk "name" none false false, BoltType.String "Alice"),
       (ParamFieldSpec.mk "age" none false false, BoltType.Integer 30)]) = none := by
  have h := claim9_to_params (fun x => x)
    [(ParamFieldSpec.mk "internal_id" none false true, BoltType.Integer 999),
     (ParamFieldSpec.mk "name" none false false, BoltType.String "Alice"),
     (ParamFieldSpec.mk "age" none false false, BoltType.Integer 30)]
    (by decide)
  constructor
  · exact h.2.1 (ParamFieldSpec.mk "name" none false false, BoltType.String "Alice")
      (by simp) rfl
  · exact h.2.2 "internal_id" (by decide)

/-! Tuple conversion lemmas for C10. -/

lemma pair_on_two (fA : BoltType → Except CyphrError α)
    (fB : BoltType → Except CyphrError β) (a b : BoltType) :
    fromValue_Pair fA fB (BoltType.List [a, b]) =
      some (match fA a with
        | .error e => .error e
        | .ok va =>
          match fB b with
          | .error e => .error e
          | .ok vb => .ok (va, vb)) := rfl

lemma triple_on_three (fA : BoltType → Except CyphrError α)
    (fB : BoltType → Except CyphrError β) (fC : BoltType → Except CyphrError γ)
    (a b c : BoltType) :
    fromValue_Triple fA fB fC (BoltType.List [a, b, c]) =
      some (match fA a with
        | .error e => .error e
        | .ok va =>
          match fB b with
          | .error e => .error e
          | .ok vb =>
            match fC c with
            | .error e => .error e
            | .ok vc => .ok (va, vb, vc)) := rfl

lemma pair_wrong_shape (fA : BoltType → Except CyphrError α)
    (fB : BoltType → Except CyphrError β) (v : BoltType)
    (h : isListOfLength 2 v = false) :
    fromValue_Pair fA fB v =
      some (.error (CyphrError.TypeMismatch "List[2]" (type_name v) "tuple(A, B)")) := by
  cases v
  case List xs =>
    have hne : xs.length ≠ 2 := by simpa [isListOfLength] using h
    simp [fromValue_Pair, hne, CyphrError.type_mismatch]
  all_goals simp_all [fromValue_Pair, isListOfLength, CyphrError.type_mismatch]

lemma triple_wrong_shape (fA : BoltType → Except CyphrError α)
    (fB : BoltType → Except CyphrError β) (fC : BoltType → Except CyphrError γ)
    (v : BoltType) (h : isListOfLength 3 v = false) :
    fromValue_Triple fA fB fC v =
      some (.error (CyphrError.TypeMismatch "List[3]" (type_name v) "tuple(A, B, C)")) := by
  cases v
  case List xs =>
    have hne : xs.length ≠ 3 := by simpa [isListOfLength] using h
    simp [fromValue_Triple, hne, CyphrError.type_mismatch]
  all_goals simp_all [fromValue_Triple, isListOfLength, CyphrError.type_mismatch]

lemma pair_total (fA : BoltType → Except CyphrError α)
    (fB : BoltType → Except CyphrError β) (v : BoltType) :
    fromValue_Pair fA fB v ≠ none := by
  by_cases h : isListOfLength 2 v = true
  · cases v <;> simp [isListOfLength] at h
    next xs =>
      rcases List.length_eq_two.mp h with ⟨a, b, rfl⟩
      rw [pair_on_two]
      simp
  · rw [pair_wrong_shape fA fB v (by simpa using h)]
    simp

lemma triple_total (fA : BoltType → Except CyphrError α)
    (fB : BoltType → Except CyphrError β) (fC : BoltType → Except CyphrError γ)
    (v : BoltType) :
    fromValue_Triple fA fB fC v ≠ none := by
  by_cases h : isListOfLength 3 v = true
  · cases v <;> simp [isListOfLength] at h
    next xs =>
      rcases List.length_eq_three.mp h with ⟨a, b, c, rfl⟩
      rw [triple_on_three]
      simp
  · rw [triple_wrong_shape fA fB fC v (by simpa using h)]
    simp

/-- C10: tuple conversion for arities 2 and 3 is total and panic-free
(the modelled `pop().unwrap()` steps, whose failure would be `none`,
never produce `none`); a `List` of exactly the required length is
converted positionally in order, and any other value yields a
`TypeMismatch` naming `List[2]` respectively `List[3]` as expected. -/
theorem claim10_tuple_totality (fA : BoltType → Except CyphrError α)
    (fB : BoltType → Except CyphrError β) (fC : BoltType → Except CyphrError γ) :
    (∀ v, fromValue_Pair fA fB v ≠ none) ∧
    (∀ v, fromValue_Triple fA fB fC v ≠ none) ∧
    (∀ a b, fromValue_Pair fA fB (BoltType.List [a, b]) =
      some (match fA a with
        | .error e => .error e
        | .ok va =>
          match fB b with
          | .error e => .error e
          | .ok vb => .ok (va, vb))) ∧
    (∀ v, isListOfLength 2 v = false →
      fromValue_Pair fA fB v =
        some (.error (CyphrError.TypeMismatch "List[2]" (type_name v) "tuple(A, B)"))) ∧
    (∀ a b c, fromValue_Triple fA fB fC (BoltType.List [a, b, c]) =
      some (match fA a with
        | .error e => .error e
        | .ok va =>
          match fB b with
          | .error e => .error e
          | .ok vb =>
            match fC c with
            | .error e => .error e
            | .ok vc => .ok (va, vb, vc))) ∧
    (∀ v, isListOfLength 3 v = false →
      fromValue_Triple fA fB fC v =
        some (.error (CyphrError.TypeMismatch "List[3]" (type_name v) "tuple(A, B, C)"))) :=
  ⟨pair_total fA fB, triple_total fA fB fC,
   pair_on_two fA fB,
   pair_wrong_shape fA fB,
   triple_on_three fA fB fC,
   triple_wrong_shape fA fB fC⟩

/-- Witness for C10: a one-element list mismatches arity 2 with
expected tag `List[2]` and got tag `List`; an exact two-element list
converts positionally; a string mismatches arity 3. -/
theorem claim10_witness :
    fromValue_Pair fromValue_i64 fromValue_bool
      (BoltType.List [BoltType.Integer 1]) =
      some (.error (CyphrError.TypeMismatch "List[2]" "List" "tuple(A, B)")) ∧
    fromValue_Pair fromValue_i64 fromValue_bool
      (BoltType.List [BoltType.Integer 7, BoltType.Boolean true]) =
      some (.ok (7, true)) ∧
    fromValue_Triple fromValue_i64 fromValue_bool fromValue_String
      (BoltType.String "x") =
      some (.error (CyphrError.TypeMismatch "List[3]" "String" "tuple(A, B, C)")) := by
  have h := claim10_tuple_totality fromValue_i64 fromValue_bool fromValue_String
  refine ⟨h.2.2.2.1 (BoltType.List [BoltType.Integer 1]) rfl, ?_,
    h.2.2.2.2.2 (BoltType.String "x") rfl⟩
  have h2 := h.2.2.1 (BoltType.Integer 7) (BoltType.Boolean true)
  rw [h2]
  rfl

end Cyphr
